import Mathlib

/-
Verification development for the UC4E-Mobile tick-driven simulation core
(gameReducer in src/components/Simulation.tsx).

Modelling conventions:
  * JavaScript numbers are modelled as exact rationals.
  * The transcendental / irrational functions of the JS Math object
    (sqrt, cos, sin, atan2, PI) are supplied by an oracle structure JsMath;
    theorems that need analytic facts about them take those facts as
    hypotheses, and concrete evaluations use oracles that return the exact
    values at every point actually consulted.
  * Live randomness (Math.random()) and wall-clock time (Date.now()) are
    supplied by an oracle structure Env, with one field per call site of the
    source; ids generated from Date.now()/Math.random() are likewise drawn
    from Env.
  * The reducer is modelled as a pure function, following the returned state
    of the source reducer.  Two aliasing effects of the source are modelled
    faithfully: the per-tick decrement of integrityCooldown is applied to the
    stale pre-copy node array which the end of the tick overwrites with the
    mutated copies, so the decrement never reaches the returned state; and
    the visual effect pushed on a player wall bounce is appended to an array
    that has already been consumed, so it never reaches the returned state.
  * Node updates keyed by object identity in the source are modelled as
    updates keyed by node id.
  * Only the actions relevant to the simulation core claims are modelled:
    START_AIMING, SET_DIRECTION, LAUNCH_PLAYER and TICK.  GameState keeps
    exactly the fields these actions read or write.
-/

namespace UC4E

/-- Node type variants used by the simulation core. -/
inductive NodeType
  | player_consciousness
  | star
  | rocky_planet
  | life_seed
  | sentient_colony
  | asteroid
deriving DecidableEq, Repr

/-- Celestial or player body (GameNode of the source). -/
structure GameNode where
  id : String
  label : String
  type : NodeType
  x : ℚ
  y : ℚ
  vx : ℚ
  vy : ℚ
  radius : ℚ
  connections : List String
  hasLife : Bool
  imageUrl : Option String
  maxIntegrity : ℚ
  currentIntegrity : ℚ
  integrityCooldown : ℚ
deriving DecidableEq, Repr

/-- Player projection lifecycle states. -/
inductive PlayerState
  | IDLE
  | AIMING_DIRECTION
  | AIMING_POWER
  | PROJECTING
  | REFORMING
deriving DecidableEq, Repr

/-- Projection record of the source (playerState, aimAngle, power, reformTimer). -/
structure ProjectionState where
  playerState : PlayerState
  aimAngle : ℚ
  power : ℚ
  reformTimer : ℚ
deriving DecidableEq, Repr

/-- Captured node demoted to an orbiting decoration. -/
structure Satellite where
  id : String
  type : NodeType
  imageUrl : Option String
  label : String
  orbitRadius : ℚ
  orbitSpeed : ℚ
  angle : ℚ
deriving DecidableEq, Repr

/-- Energy pickup. -/
structure EnergyOrb where
  id : String
  x : ℚ
  y : ℚ
  vx : ℚ
  vy : ℚ
  radius : ℚ
  value : ℚ
deriving DecidableEq, Repr

/-- Ambient dust particle. -/
structure SpaceDust where
  id : String
  x : ℚ
  y : ℚ
  vx : ℚ
  vy : ℚ
  size : ℚ
  color : String
deriving DecidableEq, Repr

/-- Expanding shockwave effect (life grows 0 to 1). -/
structure Shockwave where
  id : String
  x : ℚ
  y : ℚ
  maxRadius : ℚ
  life : ℚ
deriving DecidableEq, Repr

/-- Floating reward text. -/
structure FloatingText where
  id : String
  x : ℚ
  y : ℚ
  text : String
  color : String
  life : ℚ
  vy : ℚ
deriving DecidableEq, Repr

/-- Kind tag of a visual effect object. -/
inductive EffectKind
  | spark
  | flare
  | assimilation
deriving DecidableEq, Repr

/-- Spark or flare particle. -/
structure VisualEffect where
  id : String
  x : ℚ
  y : ℚ
  type : EffectKind
  life : ℚ
  scale : Option ℚ
  angle : Option ℚ
deriving DecidableEq, Repr

/-- Projectile trail particle. -/
structure TrailParticle where
  id : String
  x : ℚ
  y : ℚ
  life : ℚ
deriving DecidableEq, Repr

/-- Screen shake intensity record. -/
structure ScreenShake where
  intensity : ℚ
  duration : ℚ
deriving DecidableEq, Repr

/-- Settings fields read by the modelled actions. -/
structure Settings where
  aimAssist : Bool
deriving DecidableEq, Repr

/-- World aggregate: the GameState fields read or written by the modelled
actions. -/
structure GameState where
  isPaused : Bool
  energy : ℚ
  knowledge : ℚ
  biomass : ℚ
  karma : ℚ
  zoomLevel : ℚ
  tutorialStep : ℤ
  nodes : List GameNode
  satellites : List Satellite
  spaceDust : List SpaceDust
  projection : ProjectionState
  turnHitIds : List String
  energyOrbs : List EnergyOrb
  projectileTrailParticles : List TrailParticle
  shockwaves : List Shockwave
  floatingTexts : List FloatingText
  visualEffects : List VisualEffect
  selectedNodeId : Option String
  aimAssistTargetId : Option String
  screenShake : ScreenShake
  notifications : List String
  settings : Settings
deriving DecidableEq, Repr

/-- Oracle for the JS Math functions whose exact values the source consumes. -/
structure JsMath where
  sqrt : ℚ → ℚ
  cos : ℚ → ℚ
  sin : ℚ → ℚ
  atan2 : ℚ → ℚ → ℚ
  pi : ℚ

/-- Math.hypot of the source, expressed through the sqrt oracle. -/
def JsMath.hypot (m : JsMath) (a b : ℚ) : ℚ :=
  m.sqrt (a * a + b * b)

/-- Oracle for Math.random() draws, Date.now() and the ids derived from them,
one field per call site of the source tick. -/
structure Env where
  now : ℚ
  dustId : ℕ → String
  dustRand : ℕ → ℕ → ℚ
  ftId : String
  shockId : String
  flareId : String
  sparkId : ℕ → String
  sparkRand : ℕ → ℕ → ℚ
  eruptId : ℕ → String
  eruptRand : ℕ → ℚ
  satSpeedRand : ℚ
  satAngleRand : ℚ
  orbSpawnRand : String → ℚ
  orbRand : String → ℕ → ℚ
  orbId : String → String
  trailId : String

-- Constants for game balance (values of the source, as exact rationals).

def BASE_KNOWLEDGE_RATE : ℚ := 1/10
def STAR_ENERGY_RATE : ℚ := 1/2
def STAR_ORB_SPAWN_CHANCE : ℚ := 5/1000
def AIM_ROTATION_SPEED : ℚ := 5/100
def POWER_OSCILLATION_SPEED : ℚ := 3/2
def MAX_LAUNCH_POWER : ℚ := 40
def PROJECTILE_FRICTION : ℚ := 99/100
def REFORM_DURATION : ℚ := 80
def ORB_COLLECTION_LEEWAY : ℚ := 25
def AIM_ASSIST_ANGLE : ℚ := 1/5
def HARMONY_THRESHOLD : ℚ := 50
def CHAOS_THRESHOLD : ℚ := -50

/-- First node of player type, as the source finds the player node. -/
def findPlayer (nodes : List GameNode) : Option GameNode :=
  nodes.find? (fun n => decide (n.type = NodeType.player_consciousness))

/-- Update every node carrying the given id (the source mutates the found
object in place; ids are unique in every reachable state). -/
def updNode (nodes : List GameNode) (id : String) (f : GameNode → GameNode) :
    List GameNode :=
  nodes.map (fun n => if n.id = id then f n else n)

/-- The harmony multiplier the source computes from karma at the top of the
resource accrual block (and then never applies). -/
def harmonyBonus (karma : ℚ) : ℚ :=
  if karma > HARMONY_THRESHOLD then 5/4 else 1

/-- createSpaceDust of the source: count random dust particles. -/
def createSpaceDust (env : Env) (count : ℕ) (width height : ℚ) :
    List SpaceDust :=
  (List.range count).map (fun i =>
    { id := env.dustId i
      x := (env.dustRand i 0 - 1/2) * width * 2
      y := (env.dustRand i 1 - 1/2) * height * 2
      vx := (env.dustRand i 2 - 1/2) * (2/10)
      vy := (env.dustRand i 3 - 1/2) * (2/10)
      size := env.dustRand i 4 * 2 + 1
      color := if env.dustRand i 5 > 8/10 then "#a5f3fc" else "#ffffff" })

-- ---------------------------------------------------------------------------
-- TICK: projection state machine
-- ---------------------------------------------------------------------------

/-- Folding of an absolute angular difference into the range [0, pi], as the
source does before comparing against the aim assist tolerance. -/
def foldAngleDiff (m : JsMath) (d : ℚ) : ℚ :=
  if d > m.pi then 2 * m.pi - d else d

/-- Aim assist scan of the AIMING_DIRECTION tick: first non-player node whose
bearing is within the fixed tolerance of the current aim angle, together with
the magnetically snapped new aim angle. -/
def aimScan (m : JsMath) (player : GameNode) (newAngle : ℚ) :
    List GameNode → Option (String × ℚ)
  | [] => none
  | node :: rest =>
    if node.id = player.id then aimScan m player newAngle rest
    else
      let angleToNode := m.atan2 (node.y - player.y) (node.x - player.x)
      let angleDiff := foldAngleDiff m |newAngle - angleToNode|
      if angleDiff < AIM_ASSIST_ANGLE then
        some (node.id,
          angleToNode +
            angleDiff * (1/10) * (if newAngle > angleToNode then -1 else 1))
      else aimScan m player newAngle rest

/-- Target id and aim angle computed by the AIMING_DIRECTION tick: rotate the
aim, lock onto a selected target or magnetically snap to the first aim assist
candidate. -/
def aimingDirectionResult (m : JsMath) (player : GameNode) (st : GameState) :
    Option String × ℚ :=
  let newAngle0 := st.projection.aimAngle + AIM_ROTATION_SPEED
  let sel : Option GameNode :=
    match st.selectedNodeId with
    | some sid => st.nodes.find? (fun n => n.id == sid)
    | none => none
  match sel with
  | some targetNode =>
    (st.selectedNodeId,
      m.atan2 (targetNode.y - player.y) (targetNode.x - player.x))
  | none =>
    if st.settings.aimAssist then
      match aimScan m player newAngle0 st.nodes with
      | some (tid, a) => (some tid, a)
      | none => (none, newAngle0)
    else (none, newAngle0)

/-- AIMING_DIRECTION tick behaviour. -/
def aimingDirectionTick (m : JsMath) (player : GameNode) (st : GameState) :
    GameState :=
  { st with
    aimAssistTargetId := (aimingDirectionResult m player st).1
    projection := { st.projection with
      aimAngle := (aimingDirectionResult m player st).2 } }

-- ---------------------------------------------------------------------------
-- TICK: PROJECTING collision resolution
-- ---------------------------------------------------------------------------

/-- Dust contact test of the PROJECTING tick. -/
def dustHit (m : JsMath) (player : GameNode) (d : SpaceDust) : Bool :=
  decide (m.hypot (player.x - d.x) (player.y - d.y) < player.radius + d.size + 10)

/-- Dust collision step of the PROJECTING tick: consume dust in contact for a
small knowledge reward and respawn as many particles as distinct consumed ids. -/
def dustPhase (m : JsMath) (env : Env) (width height : ℚ) (player : GameNode)
    (st : GameState) : GameState :=
  let removed := st.spaceDust.filter (dustHit m player)
  let removedIds := (removed.map SpaceDust.id).dedup
  { st with
    knowledge := st.knowledge + (removed.length : ℚ) * (1/2)
    spaceDust :=
      if removedIds.length > 0 then
        (st.spaceDust.filter (fun d => !(removedIds.contains d.id))) ++
          createSpaceDust env removedIds.length (width * 3) (height * 3)
      else st.spaceDust }

/-- Damage applied on a resolved collision: one integrity point for every
non-asteroid node, plus the short invulnerability cooldown. -/
def damagedNode (node : GameNode) : GameNode :=
  { node with
    currentIntegrity :=
      if node.type ≠ NodeType.asteroid then node.currentIntegrity - 1
      else node.currentIntegrity
    integrityCooldown := 20 }

/-- Type specific bounce factor of a resolved collision. -/
def bounceFactor : NodeType → ℚ
  | NodeType.asteroid => 13/10
  | NodeType.star => 11/10
  | _ => 17/20

/-- Planet-like node types, eligible for assimilation on destruction. -/
abbrev planetLike (t : NodeType) : Prop :=
  t = NodeType.rocky_planet ∨ t = NodeType.life_seed ∨ t = NodeType.sentient_colony

/-- Standard hit reward table of the source, by node type and combo status. -/
def standardHitReward (t : NodeType) (isCombo : Bool) : ℚ :=
  match t with
  | NodeType.star => if isCombo then 200 else 100
  | NodeType.asteroid => if isCombo then 20 else 10
  | _ => if isCombo then 100 else 50

/-- Floating reward text of a standard hit. -/
def standardHitText (t : NodeType) (isCombo : Bool) (reward : ℚ) : String :=
  match t with
  | NodeType.star =>
    if isCombo then "DOUBLE FLAME! +" ++ toString reward
    else "FLARE +" ++ toString reward
  | NodeType.asteroid => "BUMP"
  | _ =>
    if isCombo then "CRACK! +" ++ toString reward
    else "HIT +" ++ toString reward

/-- Floating reward text color of a standard hit. -/
def standardHitColor (t : NodeType) : String :=
  match t with
  | NodeType.star => "#fde047"
  | NodeType.asteroid => "#9ca3af"
  | _ => "#86efac"

/-- Star state after a supernova: integrity reset to the maximum with the
long downtime cooldown. -/
def starReset (node : GameNode) : GameNode :=
  { node with
    currentIntegrity := node.maxIntegrity
    integrityCooldown := 600 }

/-- Supernova outcome of destroying a star: large energy reward, boosted
player velocity, integrity reset with a long cooldown, radial orb eruption. -/
def starSupernova (m : JsMath) (env : Env) (player node : GameNode)
    (pvx pvy : ℚ) (st : GameState) : GameState :=
  { st with
    nodes :=
      updNode
        (updNode st.nodes player.id
          (fun p => { p with vx := pvx * (3/2), vy := pvy * (3/2) }))
        node.id (fun _ => starReset node)
    energy := st.energy + 1000
    floatingTexts := st.floatingTexts ++
      [{ id := env.ftId, x := node.x, y := node.y - 40,
         text := "SUPERNOVA!", color := "#fde047", life := 80, vy := -1 }]
    screenShake := { intensity := 30, duration := 30 }
    shockwaves := st.shockwaves ++
      [{ id := env.shockId, x := node.x, y := node.y, maxRadius := 500, life := 0 }]
    notifications := st.notifications ++ ["SOLAR SUPER-CHARGE!"]
    energyOrbs := st.energyOrbs ++
      (List.range 15).map (fun i =>
        let orbAngle := env.eruptRand i * m.pi * 2
        { id := env.eruptId i, x := node.x, y := node.y,
          vx := m.cos orbAngle * 9, vy := m.sin orbAngle * 9,
          radius := 8, value := 50 }) }

/-- Assimilation outcome of destroying a planet-like node: the node leaves the
registry and becomes a satellite orbiting the player. -/
def planetAssimilation (m : JsMath) (env : Env) (player node : GameNode)
    (pvx pvy : ℚ) (st : GameState) : GameState :=
  { st with
    nodes :=
      (updNode st.nodes player.id
        (fun p => { p with vx := pvx * (6/10), vy := pvy * (6/10) })).filter
        (fun n => n.id != node.id)
    satellites := st.satellites ++
      [{ id := node.id, type := node.type, imageUrl := node.imageUrl,
         label := node.label,
         orbitRadius := 60 + (st.satellites.length : ℚ) * 20,
         orbitSpeed := 2/100 + env.satSpeedRand * (1/100),
         angle := env.satAngleRand * m.pi * 2 }]
    biomass := st.biomass + 200
    floatingTexts := st.floatingTexts ++
      [{ id := env.ftId, x := node.x, y := node.y - 40,
         text := "ASSIMILATED", color := "#67e8f9", life := 60, vy := -1 }]
    screenShake := { intensity := 15, duration := 15 }
    shockwaves := st.shockwaves ++
      [{ id := env.shockId, x := node.x, y := node.y, maxRadius := 150, life := 0 }] }

/-- Standard hit outcome on a damaged-but-alive node: combo-aware reward paid
to the type specific resource, hit set update, effects. -/
def standardHit (env : Env) (player node1 : GameNode) (pvx pvy : ℚ)
    (st : GameState) : GameState :=
  let isCombo : Bool := st.turnHitIds.contains node1.id
  let reward := standardHitReward node1.type isCombo
  { st with
    nodes :=
      updNode
        (updNode st.nodes player.id (fun p => { p with vx := pvx, vy := pvy }))
        node1.id (fun _ => node1)
    energy := if node1.type = NodeType.star then st.energy + reward else st.energy
    knowledge :=
      if node1.type = NodeType.asteroid then st.knowledge + reward
      else st.knowledge
    biomass :=
      if node1.type ≠ NodeType.star ∧ node1.type ≠ NodeType.asteroid then
        st.biomass + reward
      else st.biomass
    turnHitIds :=
      if isCombo then st.turnHitIds else st.turnHitIds ++ [node1.id]
    floatingTexts := st.floatingTexts ++
      [{ id := env.ftId, x := node1.x, y := node1.y - 30,
         text := standardHitText node1.type isCombo reward,
         color := standardHitColor node1.type, life := 40, vy := -3/2 }]
    visualEffects := st.visualEffects ++
      (if node1.type = NodeType.star then
        [{ id := env.flareId, x := node1.x, y := node1.y,
           type := EffectKind.flare, life := 30, scale := some (3/2),
           angle := none }]
      else []) ++
      (if isCombo then
        (List.range 8).map (fun k =>
          { id := env.sparkId k,
            x := node1.x + (env.sparkRand k 0 - 1/2) * node1.radius,
            y := node1.y + (env.sparkRand k 1 - 1/2) * node1.radius,
            type := EffectKind.spark, life := 20, scale := none,
            angle := some (env.sparkRand k 2 * 2) })
      else [])
    screenShake := { intensity := 5, duration := 5 } }

/-- Horizontal player velocity after the bounce off a node: reflected along
the collision normal and scaled by the type specific bounce factor. -/
def bounceVx (m : JsMath) (player node : GameNode) : ℚ :=
  m.cos (m.atan2 (player.y - node.y) (player.x - node.x)) *
    m.hypot player.vx player.vy * bounceFactor node.type

/-- Vertical player velocity after the bounce off a node. -/
def bounceVy (m : JsMath) (player node : GameNode) : ℚ :=
  m.sin (m.atan2 (player.y - node.y) (player.x - node.x)) *
    m.hypot player.vx player.vy * bounceFactor node.type

/-- Collision handler run on the first overlapping node when its
invulnerability cooldown has expired: damage, bounce, then the destruction or
standard hit outcome. -/
def applyCollision (m : JsMath) (env : Env) (player node : GameNode)
    (st : GameState) : GameState :=
  if (damagedNode node).currentIntegrity ≤ 0 ∧ node.type ≠ NodeType.asteroid then
    if node.type = NodeType.star then
      starSupernova m env player node (bounceVx m player node) (bounceVy m player node) st
    else if planetLike node.type then
      planetAssimilation m env player node (bounceVx m player node) (bounceVy m player node) st
    else
      { st with
        nodes :=
          updNode
            (updNode st.nodes player.id
              (fun p => { p with vx := bounceVx m player node, vy := bounceVy m player node }))
            node.id (fun _ => damagedNode node) }
  else
    standardHit env player (damagedNode node) (bounceVx m player node)
      (bounceVy m player node) st

/-- Overlap test of the collision loop: not the player, centers closer than
the sum of radii. -/
def overlapPred (m : JsMath) (player n : GameNode) : Bool :=
  n.id != player.id &&
    decide (m.hypot (player.x - n.x) (player.y - n.y) < player.radius + n.radius)

/-- First node the collision loop stops at. -/
def overlapFind (m : JsMath) (player : GameNode) (st : GameState) :
    Option GameNode :=
  st.nodes.find? (overlapPred m player)

/-- Node collision step of the PROJECTING tick.  The source loop breaks at
the first overlapping node whether or not its cooldown has expired, and only
resolves the collision when it has. -/
def nodeCollisionPhase (m : JsMath) (env : Env) (player : GameNode)
    (st : GameState) : GameState :=
  match overlapFind m player st with
  | none => st
  | some node =>
    if node.integrityCooldown ≤ 0 then applyCollision m env player node st
    else st

/-- Reform transition of the PROJECTING tick: once the player is slow enough
its velocity zeroes and the state moves to REFORMING. -/
def reformCheck (m : JsMath) (st : GameState) : GameState :=
  match findPlayer st.nodes with
  | none => st
  | some p =>
    if m.hypot p.vx p.vy < 8/10 then
      { st with
        nodes := updNode st.nodes p.id (fun n => { n with vx := 0, vy := 0 })
        projection := { st.projection with
          playerState := PlayerState.REFORMING
          reformTimer := REFORM_DURATION } }
    else st

/-- PROJECTING tick behaviour: dust contact, node collision, reform check. -/
def projectingTick (m : JsMath) (env : Env) (width height : ℚ)
    (player : GameNode) (st : GameState) : GameState :=
  reformCheck m
    (nodeCollisionPhase m env player (dustPhase m env width height player st))

/-- REFORMING tick behaviour: countdown, then back to IDLE. -/
def reformingTick (st : GameState) : GameState :=
  let t := st.projection.reformTimer - 1
  { st with projection := { st.projection with
      reformTimer := t
      playerState :=
        if t ≤ 0 then PlayerState.IDLE else PlayerState.REFORMING } }

/-- Projection state machine step of the tick (guarded on a player node
existing, as in the source). -/
def projectionPhase (m : JsMath) (env : Env) (width height : ℚ)
    (st : GameState) : GameState :=
  match findPlayer st.nodes with
  | none => st
  | some player =>
    match st.projection.playerState with
    | PlayerState.IDLE => st
    | PlayerState.AIMING_DIRECTION => aimingDirectionTick m player st
    | PlayerState.AIMING_POWER =>
      { st with projection := { st.projection with
          power := (m.sin (env.now / (1000 / POWER_OSCILLATION_SPEED)) + 1) * 50 } }
    | PlayerState.PROJECTING => projectingTick m env width height player st
    | PlayerState.REFORMING => reformingTick st

-- ---------------------------------------------------------------------------
-- TICK: satellite logic, effect ledgers, resources
-- ---------------------------------------------------------------------------

/-- Satellite logic of the tick: advance orbit angles and pay the passive
satellite trickle (guarded on a player node existing). -/
def satellitePhase (st : GameState) : GameState :=
  { st with
    satellites :=
      match findPlayer st.nodes with
      | none => st.satellites
      | some _ => st.satellites.map (fun s => { s with angle := s.angle + s.orbitSpeed })
    energy :=
      match findPlayer st.nodes with
      | none => st.energy
      | some _ => st.energy + (st.satellites.length : ℚ) * (1/10)
    biomass :=
      match findPlayer st.nodes with
      | none => st.biomass
      | some _ =>
        st.biomass +
          ((st.satellites.filter
            (fun s => decide (s.type = NodeType.life_seed))).length : ℚ) * (1/10) }

/-- Dust physics of the tick: ambient drift. -/
def dustDrift (st : GameState) : GameState :=
  { st with
    spaceDust := st.spaceDust.map (fun d => { d with x := d.x + d.vx, y := d.y + d.vy }) }

/-- Shockwave updates: grow the normalized life fraction, drop finished waves. -/
def shockwaveDecay (st : GameState) : GameState :=
  { st with
    shockwaves :=
      (st.shockwaves.map (fun s => { s with life := s.life + 1/20 })).filter
        (fun s => decide (s.life < 1)) }

/-- Floating text updates: vertical drift, countdown, removal. -/
def floatingTextDecay (st : GameState) : GameState :=
  { st with
    floatingTexts :=
      (st.floatingTexts.map (fun t => { t with y := t.y + t.vy, life := t.life - 1 })).filter
        (fun t => decide (t.life > 0)) }

/-- Visual effect updates: countdown, removal. -/
def visualEffectDecay (st : GameState) : GameState :=
  { st with
    visualEffects :=
      (st.visualEffects.map (fun e => { e with life := e.life - 1 })).filter
        (fun e => decide (e.life > 0)) }

/-- Resource accrual of the tick: flat knowledge rate and per-star energy
rate.  The source computes the karma harmony multiplier here and never
applies it, and decrements integrityCooldown on the stale pre-copy node array
that the end of the tick overwrites with the mutated copies, so neither
reaches the returned state. -/
def resourcePhase (st : GameState) : GameState :=
  { st with
    knowledge := st.knowledge + BASE_KNOWLEDGE_RATE
    energy :=
      st.energy +
        ((st.nodes.filter (fun n => decide (n.type = NodeType.star))).length : ℚ) *
          STAR_ENERGY_RATE }

-- ---------------------------------------------------------------------------
-- TICK: node physics, boundary containment, orb spawn
-- ---------------------------------------------------------------------------

/-- Velocity of a non-player node after accumulating pairwise attraction from
every other non-player node (skipping pairs closer than the minimum distance
floor). -/
def gravityFromOthers (m : JsMath) (node : GameNode) (nodes : List GameNode) :
    ℚ × ℚ :=
  nodes.foldl
    (fun v other =>
      if other.id = node.id ∨ other.type = NodeType.player_consciousness then v
      else
        let dx := other.x - node.x
        let dy := other.y - node.y
        let distSq := dx * dx + dy * dy
        if distSq > 100 then
          let dist := m.sqrt distSq
          let force :=
            (if other.type = NodeType.star then 1/5 else 1/20) * other.radius / distSq
          (v.1 + dx / dist * force, v.2 + dy / dist * force)
        else v)
    (node.vx, node.vy)

/-- Per-node velocity/position integration: the player integrates only while
PROJECTING with the projectile friction, other nodes accumulate attraction
and damp. -/
def integrateNode (m : JsMath) (projecting : Bool) (nodes : List GameNode)
    (node : GameNode) : GameNode :=
  if node.type = NodeType.player_consciousness then
    if projecting then
      { node with
        x := node.x + node.vx
        y := node.y + node.vy
        vx := node.vx * PROJECTILE_FRICTION
        vy := node.vy * PROJECTILE_FRICTION }
    else node
  else
    let v := gravityFromOthers m node nodes
    { node with
      x := node.x + v.1
      y := node.y + v.2
      vx := v.1 * (99/100)
      vy := v.2 * (99/100) }

/-- Boundary containment: a node beyond the playable radius is clamped onto
the boundary circle and reflected; the Boolean reports a player wall hit
(which drives the screen shake; the spark the source pushes here lands in an
already-consumed array and is lost). -/
def boundaryCheck (m : JsMath) (worldRadius : ℚ) (node : GameNode) :
    GameNode × Bool :=
  let distFromCenter := m.sqrt (node.x * node.x + node.y * node.y)
  if distFromCenter > worldRadius - node.radius then
    let angle := m.atan2 node.y node.x
    let x1 := m.cos angle * (worldRadius - node.radius)
    let y1 := m.sin angle * (worldRadius - node.radius)
    if node.type = NodeType.player_consciousness then
      let dot := node.vx * m.cos angle + node.vy * m.sin angle
      ({ node with
          x := x1, y := y1,
          vx := node.vx - (22/10) * dot * m.cos angle,
          vy := node.vy - (22/10) * dot * m.sin angle }, true)
    else
      ({ node with x := x1, y := y1, vx := node.vx * (-1/2), vy := node.vy * (-1/2) },
        false)
  else (node, false)

/-- Star orb emission: a star may emit one low-value orb per tick. -/
def starOrbSpawn (env : Env) (node : GameNode) : List EnergyOrb :=
  if node.type = NodeType.star ∧ env.orbSpawnRand node.id < STAR_ORB_SPAWN_CHANCE then
    [{ id := env.orbId node.id,
       x := node.x + (env.orbRand node.id 0 - 1/2) * node.radius,
       y := node.y + (env.orbRand node.id 1 - 1/2) * node.radius,
       vx := (env.orbRand node.id 2 - 1/2) * 1,
       vy := (env.orbRand node.id 3 - 1/2) * 1,
       radius := 4, value := 10 }]
  else []

/-- Accumulator of the in-place node physics loop. -/
structure PhysAcc where
  nodes : List GameNode
  orbs : List EnergyOrb
  shake : ScreenShake
deriving Repr

/-- One iteration of the node physics loop at a list index: integrate,
contain, emit.  Earlier indices have already been updated in place, so
gravity reads a mix of moved and unmoved nodes exactly as the source does. -/
def physStep (m : JsMath) (env : Env) (worldRadius : ℚ) (projecting : Bool)
    (acc : PhysAcc) (i : ℕ) : PhysAcc :=
  match acc.nodes.get? i with
  | none => acc
  | some node =>
    let moved := integrateNode m projecting acc.nodes node
    let res := boundaryCheck m worldRadius moved
    { nodes := acc.nodes.set i res.1
      orbs := acc.orbs ++ starOrbSpawn env res.1
      shake := if res.2 then { intensity := 3, duration := 5 } else acc.shake }

/-- Sequential node physics loop over a list of indices. -/
def physLoop (m : JsMath) (env : Env) (worldRadius : ℚ) (projecting : Bool) :
    List ℕ → PhysAcc → PhysAcc
  | [], acc => acc
  | i :: rest, acc =>
    physLoop m env worldRadius projecting rest (physStep m env worldRadius projecting acc i)

/-- Node physics step of the tick. -/
def nodePhysicsPhase (m : JsMath) (env : Env) (worldRadius : ℚ)
    (st : GameState) : GameState :=
  let acc :=
    physLoop m env worldRadius
      (decide (st.projection.playerState = PlayerState.PROJECTING))
      (List.range st.nodes.length)
      { nodes := st.nodes, orbs := st.energyOrbs, shake := st.screenShake }
  { st with nodes := acc.nodes, energyOrbs := acc.orbs, screenShake := acc.shake }

-- ---------------------------------------------------------------------------
-- TICK: orb collection, projectile trails, assembly
-- ---------------------------------------------------------------------------

/-- Orb pickup test: center distance below the collection leeway band. -/
def orbHit (m : JsMath) (p : GameNode) (o : EnergyOrb) : Bool :=
  decide
    (m.sqrt ((p.x - o.x) * (p.x - o.x) + (p.y - o.y) * (p.y - o.y)) <
      p.radius + o.radius + ORB_COLLECTION_LEEWAY)

/-- Energy orb collection step of the tick: orbs in range of the player are
consumed and their value credited to energy. -/
def orbCollection (m : JsMath) (st : GameState) : GameState :=
  { st with
    energyOrbs :=
      match findPlayer st.nodes with
      | none => st.energyOrbs
      | some p => st.energyOrbs.filter (fun o => !(orbHit m p o))
    energy :=
      match findPlayer st.nodes with
      | none => st.energy
      | some p =>
        st.energy + ((st.energyOrbs.filter (orbHit m p)).map EnergyOrb.value).sum }

/-- Projectile trail bookkeeping: decay, then push a fresh particle while
PROJECTING. -/
def trailPhase (env : Env) (st : GameState) : GameState :=
  { st with
    projectileTrailParticles :=
      (let decayed :=
        (st.projectileTrailParticles.map (fun p => { p with life := p.life - 1 })).filter
          (fun p => decide (p.life > 0))
      match findPlayer st.nodes, st.projection.playerState with
      | some p, PlayerState.PROJECTING =>
        decayed ++ [{ id := env.trailId, x := p.x, y := p.y, life := 25 }]
      | _, _ => decayed) }

/-- Stages of the tick after the projection state machine, in source order. -/
def tickTail (m : JsMath) (env : Env) (worldRadius : ℚ) (st : GameState) :
    GameState :=
  trailPhase env
    (orbCollection m
      (nodePhysicsPhase m env worldRadius
        (resourcePhase
          (visualEffectDecay
            (floatingTextDecay
              (shockwaveDecay
                (dustDrift
                  (satellitePhase st))))))))

/-- TICK action of the reducer. -/
def tick (m : JsMath) (env : Env) (width height : ℚ) (st : GameState) :
    GameState :=
  if st.isPaused then st
  else
    let worldRadius := min width height * (3/2) / (st.zoomLevel + 1)
    tickTail m env worldRadius (projectionPhase m env width height st)

-- ---------------------------------------------------------------------------
-- Reducer actions
-- ---------------------------------------------------------------------------

/-- Modelled reducer actions: the projection commands and the tick. -/
inductive GameAction
  | START_AIMING
  | SET_DIRECTION
  | LAUNCH_PLAYER
  | TICK (width height : ℚ)

/-- START_AIMING handler of the source reducer. -/
def startAiming (state : GameState) : GameState :=
  if state.projection.playerState ≠ PlayerState.IDLE then state
  else
    { state with
      tutorialStep := if state.tutorialStep = 0 then 1 else state.tutorialStep
      projection := { state.projection with
        playerState := PlayerState.AIMING_DIRECTION } }

/-- SET_DIRECTION handler of the source reducer. -/
def setDirection (m : JsMath) (state : GameState) : GameState :=
  if state.projection.playerState ≠ PlayerState.AIMING_DIRECTION then state
  else
    let player := findPlayer state.nodes
    let target : Option GameNode :=
      match state.aimAssistTargetId with
      | some tid => state.nodes.find? (fun n => n.id == tid)
      | none => none
    let finalAimAngle :=
      match player, target with
      | some p, some t => m.atan2 (t.y - p.y) (t.x - p.x)
      | _, _ => state.projection.aimAngle
    { state with
      tutorialStep := if state.tutorialStep = 1 then 2 else state.tutorialStep
      projection := { state.projection with
        playerState := PlayerState.AIMING_POWER
        aimAngle := finalAimAngle } }

/-- LAUNCH_PLAYER handler of the source reducer. -/
def launchPlayer (m : JsMath) (env : Env) (state : GameState) : GameState :=
  if state.projection.playerState ≠ PlayerState.AIMING_POWER then state
  else
    match findPlayer state.nodes with
    | none => state
    | some p =>
      let launchStrength := state.projection.power / 100 * MAX_LAUNCH_POWER
      { state with
        tutorialStep := if state.tutorialStep = 2 then 3 else state.tutorialStep
        nodes := state.nodes.map (fun n =>
          if n.id = p.id then
            { n with
              vx := m.cos state.projection.aimAngle * launchStrength
              vy := m.sin state.projection.aimAngle * launchStrength }
          else n)
        projection := { state.projection with
          playerState := PlayerState.PROJECTING
          power := 0 }
        projectileTrailParticles := state.projectileTrailParticles ++
          [{ id := env.trailId, x := p.x, y := p.y, life := 15 }]
        turnHitIds := [] }

/-- gameReducer of the source, restricted to the modelled actions. -/
def gameReducer (m : JsMath) (env : Env) (state : GameState) :
    GameAction → GameState
  | GameAction.TICK width height => tick m env width height state
  | GameAction.START_AIMING => startAiming state
  | GameAction.SET_DIRECTION => setDirection m state
  | GameAction.LAUNCH_PLAYER => launchPlayer m env state

-- ---------------------------------------------------------------------------
-- Helper lemmas: list indexing
-- ---------------------------------------------------------------------------

theorem get?_set_ne {α : Type} (l : List α) (a : α) :
    ∀ (i j : ℕ), i ≠ j → (l.set i a).get? j = l.get? j := by
  induction l with
  | nil => intro i j _; cases i <;> rfl
  | cons b t ih =>
    intro i j hij
    cases i with
    | zero => cases j with
      | zero => exact absurd rfl hij
      | succ j2 => rfl
    | succ i2 => cases j with
      | zero => rfl
      | succ j2 => simpa using ih i2 j2 (by omega)

theorem get?_set_self {α : Type} (l : List α) (a b : α) :
    ∀ (i : ℕ), l.get? i = some b → (l.set i a).get? i = some a := by
  induction l with
  | nil => intro i h; cases i <;> simp at h
  | cons c t ih =>
    intro i h
    cases i with
    | zero => rfl
    | succ i2 => simpa using ih i2 (by simpa using h)

theorem set_of_get?_eq {α : Type} (l : List α) (a : α) :
    ∀ (i : ℕ), l.get? i = some a → l.set i a = l := by
  induction l with
  | nil => intro i h; cases i <;> simp at h
  | cons c t ih =>
    intro i h
    cases i with
    | zero => simp at h; simp [List.set, h]
    | succ i2 => simpa [List.set] using ih i2 (by simpa using h)

theorem map_set {α β : Type} (f : α → β) (l : List α) (a : α) :
    ∀ (i : ℕ), (l.set i a).map f = (l.map f).set i (f a) := by
  induction l with
  | nil => intro i; cases i <;> rfl
  | cons c t ih =>
    intro i
    cases i with
    | zero => rfl
    | succ i2 => simp only [List.set, List.map_cons]; exact congrArg _ (ih i2)

theorem get?_map {α β : Type} (f : α → β) (l : List α) :
    ∀ (i : ℕ), (l.map f).get? i = (l.get? i).map f := by
  induction l with
  | nil => intro i; cases i <;> rfl
  | cons c t ih =>
    intro i
    cases i with
    | zero => rfl
    | succ i2 => simp only [List.map_cons]; exact ih i2

theorem map_set_of_eq {α β : Type} (f : α → β) (l : List α) (a b : α) (i : ℕ)
    (hget : l.get? i = some b) (heq : f a = f b) :
    (l.set i a).map f = l.map f := by
  rw [map_set]
  apply set_of_get?_eq
  rw [get?_map, hget]
  simp [heq]

theorem mem_of_mem_set {α : Type} (l : List α) (a x : α) :
    ∀ (i : ℕ), x ∈ l.set i a → x = a ∨ x ∈ l := by
  induction l with
  | nil => intro i h; cases i <;> simp at h
  | cons c t ih =>
    intro i h
    cases i with
    | zero =>
      rcases List.mem_cons.mp h with h1 | h1
      · exact Or.inl h1
      · exact Or.inr (List.mem_cons_of_mem c h1)
    | succ i2 =>
      rcases List.mem_cons.mp h with h1 | h1
      · exact Or.inr (h1 ▸ List.mem_cons_self c t)
      · rcases ih i2 h1 with h2 | h2
        · exact Or.inl h2
        · exact Or.inr (List.mem_cons_of_mem c h2)

-- ---------------------------------------------------------------------------
-- Helper lemmas: the kinematics-erasing node view
-- ---------------------------------------------------------------------------

/-- View of a node with its kinematic fields erased: what the physics,
boundary and bookkeeping steps leave untouched. -/
def GameNode.core (n : GameNode) : GameNode :=
  { n with x := 0, y := 0, vx := 0, vy := 0 }

theorem core_integrateNode (m : JsMath) (projecting : Bool)
    (nodes : List GameNode) (node : GameNode) :
    (integrateNode m projecting nodes node).core = node.core := by
  unfold integrateNode
  split
  · split <;> rfl
  · rfl

theorem core_boundaryCheck (m : JsMath) (worldRadius : ℚ) (node : GameNode) :
    (boundaryCheck m worldRadius node).1.core = node.core := by
  unfold boundaryCheck
  by_cases h1 :
      m.sqrt (node.x * node.x + node.y * node.y) > worldRadius - node.radius
  · by_cases h2 : node.type = NodeType.player_consciousness
    · simp only [if_pos h1, if_pos h2]; rfl
    · simp only [if_pos h1, if_neg h2]; rfl
  · simp only [if_neg h1]

theorem core_type (a b : GameNode) (h : a.core = b.core) : a.type = b.type := by
  have := congrArg GameNode.type h
  simpa [GameNode.core] using this

theorem core_id (a b : GameNode) (h : a.core = b.core) : a.id = b.id := by
  have := congrArg GameNode.id h
  simpa [GameNode.core] using this

theorem core_currentIntegrity (a b : GameNode) (h : a.core = b.core) :
    a.currentIntegrity = b.currentIntegrity := by
  have := congrArg GameNode.currentIntegrity h
  simpa [GameNode.core] using this

theorem core_maxIntegrity (a b : GameNode) (h : a.core = b.core) :
    a.maxIntegrity = b.maxIntegrity := by
  have := congrArg GameNode.maxIntegrity h
  simpa [GameNode.core] using this

theorem core_integrityCooldown (a b : GameNode) (h : a.core = b.core) :
    a.integrityCooldown = b.integrityCooldown := by
  have := congrArg GameNode.integrityCooldown h
  simpa [GameNode.core] using this

theorem updNode_map_core (l : List GameNode) (id : String)
    (f : GameNode → GameNode) (hf : ∀ n, (f n).core = n.core) :
    (updNode l id f).map GameNode.core = l.map GameNode.core := by
  unfold updNode
  rw [List.map_map]
  apply List.map_congr_left
  intro n _
  by_cases h : n.id = id <;> simp [h, hf]

theorem mem_core_of_map_core_eq {l l' : List GameNode}
    (h : l'.map GameNode.core = l.map GameNode.core) {x : GameNode}
    (hx : x ∈ l') : ∃ y ∈ l, y.core = x.core := by
  have hmem : x.core ∈ l.map GameNode.core := by
    rw [← h]
    exact List.mem_map_of_mem GameNode.core hx
  rcases List.mem_map.mp hmem with ⟨y, hy, hyx⟩
  exact ⟨y, hy, hyx⟩

-- ---------------------------------------------------------------------------
-- Helper lemmas: the node physics loop
-- ---------------------------------------------------------------------------

theorem physStep_map_core (m : JsMath) (env : Env) (worldRadius : ℚ)
    (projecting : Bool) (acc : PhysAcc) (i : ℕ) :
    (physStep m env worldRadius projecting acc i).nodes.map GameNode.core =
      acc.nodes.map GameNode.core := by
  unfold physStep
  cases hget : acc.nodes.get? i with
  | none => rfl
  | some node =>
    simp only []
    apply map_set_of_eq GameNode.core acc.nodes _ node i hget
    rw [core_boundaryCheck, core_integrateNode]

theorem physLoop_map_core (m : JsMath) (env : Env) (worldRadius : ℚ)
    (projecting : Bool) :
    ∀ (idx : List ℕ) (acc : PhysAcc),
      (physLoop m env worldRadius projecting idx acc).nodes.map GameNode.core =
        acc.nodes.map GameNode.core := by
  intro idx
  induction idx with
  | nil => intro acc; rfl
  | cons i rest ih =>
    intro acc
    rw [physLoop, ih, physStep_map_core]

theorem physStep_get_fixed (m : JsMath) (env : Env) (worldRadius : ℚ)
    (projecting : Bool) (p : GameNode)
    (hp : p.type = NodeType.player_consciousness)
    (hproj : projecting = false)
    (hin : ¬ m.sqrt (p.x * p.x + p.y * p.y) > worldRadius - p.radius)
    (acc : PhysAcc) (i j : ℕ) (hj : acc.nodes.get? j = some p) :
    (physStep m env worldRadius projecting acc i).nodes.get? j = some p := by
  unfold physStep
  by_cases hij : i = j
  · subst hij
    rw [hj]
    simp only []
    have hint : integrateNode m projecting acc.nodes p = p := by
      unfold integrateNode
      rw [if_pos hp, hproj]
      rfl
    have hbd : boundaryCheck m worldRadius p = (p, false) := by
      unfold boundaryCheck
      rw [if_neg hin]
    rw [hint, hbd]
    exact get?_set_self acc.nodes p p i hj
  · cases hget : acc.nodes.get? i with
    | none => exact hj
    | some node =>
      simp only []
      rw [get?_set_ne acc.nodes _ i j hij]
      exact hj

theorem physLoop_get_fixed (m : JsMath) (env : Env) (worldRadius : ℚ)
    (projecting : Bool) (p : GameNode)
    (hp : p.type = NodeType.player_consciousness)
    (hproj : projecting = false)
    (hin : ¬ m.sqrt (p.x * p.x + p.y * p.y) > worldRadius - p.radius) :
    ∀ (idx : List ℕ) (acc : PhysAcc) (j : ℕ), acc.nodes.get? j = some p →
      (physLoop m env worldRadius projecting idx acc).nodes.get? j = some p := by
  intro idx
  induction idx with
  | nil => intro acc j hj; exact hj
  | cons i rest ih =>
    intro acc j hj
    rw [physLoop]
    exact ih _ j (physStep_get_fixed m env worldRadius projecting p hp hproj hin acc i j hj)

theorem physStep_orbs_nospawn (m : JsMath) (env : Env) (worldRadius : ℚ)
    (projecting : Bool) (acc : PhysAcc)
    (hns : ∀ x ∈ acc.nodes, x.type = NodeType.star →
      ¬ env.orbSpawnRand x.id < STAR_ORB_SPAWN_CHANCE) (i : ℕ) :
    (physStep m env worldRadius projecting acc i).orbs = acc.orbs := by
  unfold physStep
  cases hget : acc.nodes.get? i with
  | none => rfl
  | some node =>
    simp only []
    have hmem : node ∈ acc.nodes := List.get?_mem hget
    have hres :
        (boundaryCheck m worldRadius (integrateNode m projecting acc.nodes node)).1.core
          = node.core := by
      rw [core_boundaryCheck, core_integrateNode]
    have hsp : starOrbSpawn env
        (boundaryCheck m worldRadius (integrateNode m projecting acc.nodes node)).1 = [] := by
      unfold starOrbSpawn
      rw [if_neg]
      intro hcon
      exact hns node hmem (by rw [← core_type _ _ hres]; exact hcon.1)
        (by rw [← core_id _ _ hres]; exact hcon.2)
    rw [hsp, List.append_nil]

theorem physStep_nodes_mem_core (m : JsMath) (env : Env) (worldRadius : ℚ)
    (projecting : Bool) (acc : PhysAcc) (i : ℕ) (x : GameNode)
    (hx : x ∈ (physStep m env worldRadius projecting acc i).nodes) :
    ∃ y ∈ acc.nodes, y.core = x.core :=
  mem_core_of_map_core_eq (physStep_map_core m env worldRadius projecting acc i) hx

theorem physLoop_orbs_nospawn (m : JsMath) (env : Env) (worldRadius : ℚ)
    (projecting : Bool) :
    ∀ (idx : List ℕ) (acc : PhysAcc),
      (∀ x ∈ acc.nodes, x.type = NodeType.star →
        ¬ env.orbSpawnRand x.id < STAR_ORB_SPAWN_CHANCE) →
      (physLoop m env worldRadius projecting idx acc).orbs = acc.orbs := by
  intro idx
  induction idx with
  | nil => intro acc _; rfl
  | cons i rest ih =>
    intro acc hns
    rw [physLoop]
    have hns2 : ∀ x ∈ (physStep m env worldRadius projecting acc i).nodes,
        x.type = NodeType.star → ¬ env.orbSpawnRand x.id < STAR_ORB_SPAWN_CHANCE := by
      intro x hx hstar
      rcases physStep_nodes_mem_core m env worldRadius projecting acc i x hx with ⟨y, hy, hcore⟩
      have : y.type = NodeType.star := by rw [core_type y x hcore]; exact hstar
      rw [← core_id y x hcore]
      exact hns y hy this
    rw [ih _ hns2, physStep_orbs_nospawn m env worldRadius projecting acc hns i]

theorem findPlayer_eq_of_pointwise :
    ∀ (l l' : List GameNode),
      l.map GameNode.core = l'.map GameNode.core →
      (∀ (j : ℕ) (x x' : GameNode), l.get? j = some x → l'.get? j = some x' →
        x.type = NodeType.player_consciousness → x' = x) →
      findPlayer l' = findPlayer l := by
  intro l
  induction l with
  | nil =>
    intro l' hmap _
    cases l' with
    | nil => rfl
    | cons a t => simp at hmap
  | cons a t ih =>
    intro l' hmap hpt
    cases l' with
    | nil => simp at hmap
    | cons a' t' =>
      simp only [List.map_cons, List.cons.injEq] at hmap
      have htype : a'.type = a.type := core_type a' a (by rw [hmap.1])
      unfold findPlayer
      by_cases hp : a.type = NodeType.player_consciousness
      · have h0 : a' = a := hpt 0 a a' rfl rfl hp
        simp [List.find?, hp, htype, h0]
      · have hp' : ¬ a'.type = NodeType.player_consciousness := by
          rw [htype]; exact hp
        simp only [List.find?, decide_eq_true_eq, hp, hp', decide_False]
        have := ih t' hmap.2 (fun j x x' hx hx' hxt => hpt (j+1) x x' (by simpa using hx)
          (by simpa using hx') hxt)
        simpa [findPlayer] using this

-- ---------------------------------------------------------------------------
-- Helper lemmas: tick tail field bookkeeping
-- ---------------------------------------------------------------------------

theorem tickTail_projection (m : JsMath) (env : Env) (worldRadius : ℚ)
    (st : GameState) : (tickTail m env worldRadius st).projection = st.projection := rfl

theorem tickTail_knowledge (m : JsMath) (env : Env) (worldRadius : ℚ)
    (st : GameState) :
    (tickTail m env worldRadius st).knowledge = st.knowledge + BASE_KNOWLEDGE_RATE := rfl

theorem tickTail_turnHitIds (m : JsMath) (env : Env) (worldRadius : ℚ)
    (st : GameState) : (tickTail m env worldRadius st).turnHitIds = st.turnHitIds := rfl

theorem tickTail_satellites (m : JsMath) (env : Env) (worldRadius : ℚ)
    (st : GameState) :
    (tickTail m env worldRadius st).satellites = (satellitePhase st).satellites := rfl

theorem tickTail_nodes (m : JsMath) (env : Env) (worldRadius : ℚ)
    (st : GameState) :
    (tickTail m env worldRadius st).nodes =
      (physLoop m env worldRadius
        (decide (st.projection.playerState = PlayerState.PROJECTING))
        (List.range st.nodes.length)
        { nodes := st.nodes, orbs := st.energyOrbs, shake := st.screenShake }).nodes := rfl

theorem tickTail_nodes_map_core (m : JsMath) (env : Env) (worldRadius : ℚ)
    (st : GameState) :
    (tickTail m env worldRadius st).nodes.map GameNode.core =
      st.nodes.map GameNode.core := by
  rw [tickTail_nodes]
  exact physLoop_map_core m env worldRadius _ _ _

-- ---------------------------------------------------------------------------
-- Helper lemmas: projection phase bookkeeping
-- ---------------------------------------------------------------------------

theorem projectionPhase_IDLE (m : JsMath) (env : Env) (width height : ℚ)
    (st : GameState) (h : st.projection.playerState = PlayerState.IDLE) :
    projectionPhase m env width height st = st := by
  unfold projectionPhase
  cases hp : findPlayer st.nodes with
  | none => rfl
  | some p => rw [h]

theorem projectionPhase_PROJECTING (m : JsMath) (env : Env) (width height : ℚ)
    (st : GameState) (p : GameNode)
    (hp : findPlayer st.nodes = some p)
    (h : st.projection.playerState = PlayerState.PROJECTING) :
    projectionPhase m env width height st = projectingTick m env width height p st := by
  unfold projectionPhase
  rw [hp, h]

theorem dustPhase_nodes (m : JsMath) (env : Env) (width height : ℚ)
    (player : GameNode) (st : GameState) :
    (dustPhase m env width height player st).nodes = st.nodes := rfl

theorem dustPhase_projection (m : JsMath) (env : Env) (width height : ℚ)
    (player : GameNode) (st : GameState) :
    (dustPhase m env width height player st).projection = st.projection := rfl

theorem dustPhase_turnHitIds (m : JsMath) (env : Env) (width height : ℚ)
    (player : GameNode) (st : GameState) :
    (dustPhase m env width height player st).turnHitIds = st.turnHitIds := rfl

theorem dustPhase_satellites (m : JsMath) (env : Env) (width height : ℚ)
    (player : GameNode) (st : GameState) :
    (dustPhase m env width height player st).satellites = st.satellites := rfl

theorem reformCheck_nodes_map_core (m : JsMath) (st : GameState) :
    (reformCheck m st).nodes.map GameNode.core = st.nodes.map GameNode.core := by
  unfold reformCheck
  cases h : findPlayer st.nodes with
  | none => rfl
  | some p =>
    by_cases hv : m.hypot p.vx p.vy < 8/10
    · simp only [if_pos hv]
      exact updNode_map_core st.nodes p.id
        (fun n => { n with vx := 0, vy := 0 }) (fun n => rfl)
    · simp only [if_neg hv]

theorem reformCheck_turnHitIds (m : JsMath) (st : GameState) :
    (reformCheck m st).turnHitIds = st.turnHitIds := by
  unfold reformCheck
  cases h : findPlayer st.nodes with
  | none => rfl
  | some p =>
    by_cases hv : m.hypot p.vx p.vy < 8/10
    · simp only [if_pos hv]
    · simp only [if_neg hv]

theorem reformCheck_satellites (m : JsMath) (st : GameState) :
    (reformCheck m st).satellites = st.satellites := by
  unfold reformCheck
  cases h : findPlayer st.nodes with
  | none => rfl
  | some p =>
    by_cases hv : m.hypot p.vx p.vy < 8/10
    · simp only [if_pos hv]
    · simp only [if_neg hv]

theorem reformCheck_playerState (m : JsMath) (st : GameState) :
    (reformCheck m st).projection.playerState = st.projection.playerState ∨
      (reformCheck m st).projection.playerState = PlayerState.REFORMING := by
  unfold reformCheck
  cases h : findPlayer st.nodes with
  | none => exact Or.inl rfl
  | some p =>
    by_cases hv : m.hypot p.vx p.vy < 8/10
    · exact Or.inr (by simp only [if_pos hv])
    · exact Or.inl (by simp only [if_neg hv])

-- ---------------------------------------------------------------------------
-- Concrete oracles and states for witnesses and counterexamples
-- ---------------------------------------------------------------------------

/-- Randomness oracle for concrete runs: fixed ids, all draws 0, and star orb
spawn draws at 1 (so no orb spawns, since the chance threshold is 1/200). -/
def envZero : Env :=
  { now := 0
    dustId := fun _ => "dust", dustRand := fun _ _ => 0
    ftId := "ft", shockId := "shock", flareId := "flare"
    sparkId := fun _ => "spark", sparkRand := fun _ _ => 0
    eruptId := fun _ => "erupt", eruptRand := fun _ => 0
    satSpeedRand := 0, satAngleRand := 0
    orbSpawnRand := fun _ => 1, orbRand := fun _ _ => 0
    orbId := fun _ => "orb", trailId := "trail" }

/-- The player node of the initial playfield. -/
def basePlayer : GameNode :=
  { id := "player_consciousness", label := "You",
    type := NodeType.player_consciousness,
    x := 0, y := 0, vx := 0, vy := 0, radius := 20, connections := [],
    hasLife := false, imageUrl := none,
    maxIntegrity := 100, currentIntegrity := 100, integrityCooldown := 0 }

/-- A quiescent world holding only the player, used as the base of the
concrete runs. -/
def baseState : GameState :=
  { isPaused := false, energy := 50, knowledge := 10, biomass := 0, karma := 0,
    zoomLevel := 0, tutorialStep := 0, nodes := [basePlayer], satellites := [],
    spaceDust := [], projection :=
      { playerState := PlayerState.IDLE, aimAngle := 0, power := 0, reformTimer := 0 },
    turnHitIds := [], energyOrbs := [], projectileTrailParticles := [],
    shockwaves := [], floatingTexts := [], visualEffects := [],
    selectedNodeId := none, aimAssistTargetId := none,
    screenShake := { intensity := 0, duration := 0 }, notifications := [],
    settings := { aimAssist := true } }

/-- Math oracle for runs that only ever query sqrt at 0 (every body at the
origin, far inside the boundary). -/
def mZero : JsMath :=
  { sqrt := fun _ => 0, cos := fun _ => 0, sin := fun _ => 0,
    atan2 := fun _ _ => 0, pi := 0 }

/-- State for the C1 run: karma above the harmony threshold, player idle. -/
def c1State : GameState := { baseState with karma := 60 }

/-- Claim C1 (code bug witness): on a tick with karma = 60 above the harmony
threshold of 50, the source computes the 1.25 harmony multiplier but the
passive knowledge accrual still adds the flat BASE_KNOWLEDGE_RATE, not the
multiplied rate: the multiplier local is never read. -/
theorem c1_harmony_bonus_never_applied :
    c1State.karma > HARMONY_THRESHOLD ∧
    harmonyBonus c1State.karma = 5/4 ∧
    (tick mZero envZero 800 600 c1State).knowledge =
      c1State.knowledge + BASE_KNOWLEDGE_RATE ∧
    (tick mZero envZero 800 600 c1State).knowledge ≠
      c1State.knowledge + harmonyBonus c1State.karma * BASE_KNOWLEDGE_RATE := by
  refine ⟨by norm_num [c1State, baseState, HARMONY_THRESHOLD], ?_, ?_, ?_⟩
  · norm_num [c1State, baseState, harmonyBonus, HARMONY_THRESHOLD]
  · with_unfolding_all rfl
  · with_unfolding_all decide

/-- Claim C7: for every node type, the combo reward of a standard hit is
strictly greater than the first-hit reward. -/
theorem c7_combo_reward_strictly_greater :
    ∀ t : NodeType, standardHitReward t false < standardHitReward t true := by
  intro t
  cases t <;> norm_num [standardHitReward]

-- ---------------------------------------------------------------------------
-- Helper lemmas: collision handler bookkeeping
-- ---------------------------------------------------------------------------

theorem applyCollision_projection (m : JsMath) (env : Env)
    (player node : GameNode) (st : GameState) :
    (applyCollision m env player node st).projection = st.projection := by
  unfold applyCollision
  split
  · split
    · rfl
    · split
      · rfl
      · rfl
  · rfl

theorem nodeCollisionPhase_projection (m : JsMath) (env : Env)
    (player : GameNode) (st : GameState) :
    (nodeCollisionPhase m env player st).projection = st.projection := by
  unfold nodeCollisionPhase
  cases h : overlapFind m player st with
  | none => rfl
  | some node =>
    by_cases hcd : node.integrityCooldown ≤ 0
    · simp only [if_pos hcd]
      exact applyCollision_projection m env player node st
    · simp only [if_neg hcd]

/-- Legal transition relation of the projection state machine: either the
state is unchanged or one of the five legal edges was taken. -/
def legalStep (s t : PlayerState) : Prop :=
  t = s ∨
    (s = PlayerState.IDLE ∧ t = PlayerState.AIMING_DIRECTION) ∨
    (s = PlayerState.AIMING_DIRECTION ∧ t = PlayerState.AIMING_POWER) ∨
    (s = PlayerState.AIMING_POWER ∧ t = PlayerState.PROJECTING) ∨
    (s = PlayerState.PROJECTING ∧ t = PlayerState.REFORMING) ∨
    (s = PlayerState.REFORMING ∧ t = PlayerState.IDLE)

theorem tick_playerState_legal (m : JsMath) (env : Env) (width height : ℚ)
    (st : GameState) :
    legalStep st.projection.playerState
      (tick m env width height st).projection.playerState := by
  unfold tick
  by_cases hp : st.isPaused
  · simp only [if_pos hp]
    exact Or.inl rfl
  · simp only [if_neg hp]
    rw [tickTail_projection]
    unfold projectionPhase
    cases hfp : findPlayer st.nodes with
    | none => exact Or.inl rfl
    | some player =>
      cases hps : st.projection.playerState with
      | IDLE => exact Or.inl hps
      | AIMING_DIRECTION => exact Or.inl hps
      | AIMING_POWER => exact Or.inl hps
      | PROJECTING =>
        show legalStep PlayerState.PROJECTING
          (projectingTick m env width height player st).projection.playerState
        unfold projectingTick
        rcases reformCheck_playerState m
          (nodeCollisionPhase m env player (dustPhase m env width height player st)) with
          h | h
        · refine Or.inl ?_
          rw [h, nodeCollisionPhase_projection, dustPhase_projection]
          exact hps
        · exact Or.inr (Or.inr (Or.inr (Or.inr (Or.inl ⟨rfl, h⟩))))
      | REFORMING =>
        show legalStep PlayerState.REFORMING
          (reformingTick st).projection.playerState
        unfold reformingTick
        by_cases ht : st.projection.reformTimer - 1 ≤ 0
        · refine Or.inr (Or.inr (Or.inr (Or.inr (Or.inr ⟨rfl, ?_⟩))))
          simp only [if_pos ht]
        · refine Or.inl ?_
          simp only [if_neg ht]

/-- Claim C4: projection actions sent in the wrong state return the world
unchanged, and across all modelled actions the projection state only ever
moves along the five legal edges of the cycle IDLE, AIMING_DIRECTION,
AIMING_POWER, PROJECTING, REFORMING, IDLE (or stays put). -/
theorem c4_wrong_state_actions_are_noops (m : JsMath) (env : Env)
    (st : GameState) :
    (st.projection.playerState ≠ PlayerState.IDLE →
      gameReducer m env st GameAction.START_AIMING = st) ∧
    (st.projection.playerState ≠ PlayerState.AIMING_DIRECTION →
      gameReducer m env st GameAction.SET_DIRECTION = st) ∧
    (st.projection.playerState ≠ PlayerState.AIMING_POWER →
      gameReducer m env st GameAction.LAUNCH_PLAYER = st) ∧
    (∀ a : GameAction, legalStep st.projection.playerState
      (gameReducer m env st a).projection.playerState) := by
  refine ⟨?_, ?_, ?_, ?_⟩
  · intro h
    show startAiming st = st
    unfold startAiming
    rw [if_pos h]
  · intro h
    show setDirection m st = st
    unfold setDirection
    rw [if_pos h]
  · intro h
    show launchPlayer m env st = st
    unfold launchPlayer
    rw [if_pos h]
  · intro a
    cases a with
    | TICK width height => exact tick_playerState_legal m env width height st
    | START_AIMING =>
      show legalStep st.projection.playerState (startAiming st).projection.playerState
      unfold startAiming
      by_cases h : st.projection.playerState = PlayerState.IDLE
      · rw [if_neg (by simp [h])]
        exact Or.inr (Or.inl ⟨h, rfl⟩)
      · rw [if_pos (by simpa using h)]
        exact Or.inl rfl
    | SET_DIRECTION =>
      show legalStep st.projection.playerState (setDirection m st).projection.playerState
      unfold setDirection
      by_cases h : st.projection.playerState = PlayerState.AIMING_DIRECTION
      · rw [if_neg (by simp [h])]
        exact Or.inr (Or.inr (Or.inl ⟨h, rfl⟩))
      · rw [if_pos (by simpa using h)]
        exact Or.inl rfl
    | LAUNCH_PLAYER =>
      show legalStep st.projection.playerState (launchPlayer m env st).projection.playerState
      unfold launchPlayer
      by_cases h : st.projection.playerState = PlayerState.AIMING_POWER
      · rw [if_neg (by simp [h])]
        cases hfp : findPlayer st.nodes with
        | none => exact Or.inl rfl
        | some p => exact Or.inr (Or.inr (Or.inr (Or.inl ⟨h, rfl⟩)))
      · rw [if_pos (by simpa using h)]
        exact Or.inl rfl

theorem c4_witness :
    (let st := { baseState with
      projection := { baseState.projection with playerState := PlayerState.PROJECTING } }
    gameReducer mZero envZero st GameAction.START_AIMING = st ∧
    gameReducer mZero envZero st GameAction.SET_DIRECTION = st ∧
    gameReducer mZero envZero st GameAction.LAUNCH_PLAYER = st ∧
    ∀ a : GameAction, legalStep st.projection.playerState
      (gameReducer mZero envZero st a).projection.playerState) := by
  have h := c4_wrong_state_actions_are_noops mZero envZero
    { baseState with
      projection := { baseState.projection with playerState := PlayerState.PROJECTING } }
  exact ⟨h.1 (by with_unfolding_all decide), h.2.1 (by with_unfolding_all decide),
    h.2.2.1 (by with_unfolding_all decide), h.2.2.2⟩

-- ---------------------------------------------------------------------------
-- Helper lemmas: core view of the collision outcomes
-- ---------------------------------------------------------------------------

theorem map_core_map_of_core (g : GameNode → GameNode)
    (hg : ∀ x, (g x).core = x.core) (l : List GameNode) :
    (l.map g).map GameNode.core = l.map GameNode.core := by
  rw [List.map_map]
  apply List.map_congr_left
  intro x _
  exact hg x

theorem map_core_updNode_replace (g : GameNode → GameNode)
    (hg : ∀ x, (g x).id = x.id ∧ (g x).core = x.core) (nid : String)
    (repl : GameNode) (l : List GameNode) :
    (updNode (l.map g) nid (fun _ => repl)).map GameNode.core =
      l.map (fun x => if x.id = nid then repl.core else x.core) := by
  unfold updNode
  rw [List.map_map, List.map_map]
  apply List.map_congr_left
  intro x _
  by_cases hx : x.id = nid
  · simp [Function.comp, (hg x).1, hx]
  · simp [Function.comp, (hg x).1, hx, (hg x).2]

theorem filter_map_core_of_id_core (g : GameNode → GameNode)
    (hg : ∀ x, (g x).id = x.id ∧ (g x).core = x.core) (nid : String) :
    ∀ l : List GameNode,
      ((l.map g).filter (fun x => x.id != nid)).map GameNode.core =
        (l.filter (fun x => x.id != nid)).map GameNode.core := by
  intro l
  induction l with
  | nil => rfl
  | cons c t ih =>
    rw [List.map_cons]
    cases hn : (c.id != nid)
    · simp [List.filter_cons, (hg c).1, hn, ih]
    · simp [List.filter_cons, (hg c).1, hn, ih, (hg c).2]

/-- Velocity-only node updates preserve id and core. -/
theorem vel_upd_id_core (pid : String) (a b : ℚ) :
    ∀ x : GameNode,
      ((fun n => if n.id = pid then { n with vx := a, vy := b } else n) x).id = x.id ∧
      ((fun n => if n.id = pid then { n with vx := a, vy := b } else n) x).core = x.core := by
  intro x
  by_cases hx : x.id = pid <;> simp [hx, GameNode.core]

theorem updNode_vel_replace_core (l : List GameNode) (pid : String) (a b : ℚ)
    (nid : String) (repl : GameNode) :
    (updNode (updNode l pid (fun p => { p with vx := a, vy := b })) nid
      (fun _ => repl)).map GameNode.core =
      l.map (fun x => if x.id = nid then repl.core else x.core) := by
  unfold updNode
  rw [List.map_map, List.map_map]
  apply List.map_congr_left
  intro x _
  simp only [Function.comp]
  by_cases hx : x.id = pid
  · rw [if_pos hx]
    dsimp only
    by_cases hn : x.id = nid
    · rw [if_pos hn, if_pos hn]
    · rw [if_neg hn, if_neg hn]; rfl
  · rw [if_neg hx]
    by_cases hn : x.id = nid
    · rw [if_pos hn, if_pos hn]
    · rw [if_neg hn, if_neg hn]

theorem updNode_vel_filter_core (l : List GameNode) (pid : String) (a b : ℚ)
    (nid : String) :
    ((updNode l pid (fun p => { p with vx := a, vy := b })).filter
      (fun x => x.id != nid)).map GameNode.core =
      (l.filter (fun x => x.id != nid)).map GameNode.core := by
  unfold updNode
  exact filter_map_core_of_id_core _ (vel_upd_id_core pid a b) nid l

theorem planetLike_ne (t : NodeType) (h : planetLike t) :
    t ≠ NodeType.star ∧ t ≠ NodeType.asteroid ∧
      t ≠ NodeType.player_consciousness := by
  rcases h with h | h | h <;> subst h <;> exact ⟨by decide, by decide, by decide⟩

theorem type_eq_player_of_not_handled (t : NodeType)
    (hstar : t ≠ NodeType.star) (hplanet : ¬ planetLike t)
    (hast : t ≠ NodeType.asteroid) : t = NodeType.player_consciousness := by
  cases t with
  | player_consciousness => rfl
  | star => exact absurd rfl hstar
  | rocky_planet => exact absurd (Or.inl rfl) hplanet
  | life_seed => exact absurd (Or.inr (Or.inl rfl)) hplanet
  | sentient_colony => exact absurd (Or.inr (Or.inr rfl)) hplanet
  | asteroid => exact absurd rfl hast

theorem applyCollision_core_star (m : JsMath) (env : Env)
    (player node : GameNode) (st : GameState)
    (hdead : (damagedNode node).currentIntegrity ≤ 0)
    (hstar : node.type = NodeType.star) :
    (applyCollision m env player node st).nodes.map GameNode.core =
      st.nodes.map
        (fun x => if x.id = node.id then (starReset node).core else x.core) := by
  unfold applyCollision
  rw [if_pos ⟨hdead, by rw [hstar]; decide⟩, if_pos hstar]
  exact updNode_vel_replace_core st.nodes player.id _ _ node.id (starReset node)

theorem applyCollision_core_planet (m : JsMath) (env : Env)
    (player node : GameNode) (st : GameState)
    (hdead : (damagedNode node).currentIntegrity ≤ 0)
    (hplanet : planetLike node.type) :
    (applyCollision m env player node st).nodes.map GameNode.core =
      (st.nodes.filter (fun x => x.id != node.id)).map GameNode.core := by
  unfold applyCollision
  rw [if_pos ⟨hdead, (planetLike_ne node.type hplanet).2.1⟩,
    if_neg (planetLike_ne node.type hplanet).1, if_pos hplanet]
  exact updNode_vel_filter_core st.nodes player.id _ _ node.id

theorem applyCollision_core_other (m : JsMath) (env : Env)
    (player node : GameNode) (st : GameState)
    (hdead : (damagedNode node).currentIntegrity ≤ 0)
    (hast : node.type ≠ NodeType.asteroid)
    (hstar : node.type ≠ NodeType.star) (hplanet : ¬ planetLike node.type) :
    (applyCollision m env player node st).nodes.map GameNode.core =
      st.nodes.map
        (fun x => if x.id = node.id then (damagedNode node).core else x.core) := by
  unfold applyCollision
  rw [if_pos ⟨hdead, hast⟩, if_neg hstar, if_neg hplanet]
  exact updNode_vel_replace_core st.nodes player.id _ _ node.id (damagedNode node)

theorem applyCollision_core_standard (m : JsMath) (env : Env)
    (player node : GameNode) (st : GameState)
    (hlive : ¬ ((damagedNode node).currentIntegrity ≤ 0 ∧
      node.type ≠ NodeType.asteroid)) :
    (applyCollision m env player node st).nodes.map GameNode.core =
      st.nodes.map
        (fun x => if x.id = node.id then (damagedNode node).core else x.core) := by
  unfold applyCollision
  rw [if_neg hlive]
  unfold standardHit
  exact updNode_vel_replace_core st.nodes player.id _ _ node.id (damagedNode node)

-- ---------------------------------------------------------------------------
-- Helper lemmas: predicate transfer along core views
-- ---------------------------------------------------------------------------

theorem pred_of_core_map_eq {l l2 : List GameNode}
    (hmap : l2.map GameNode.core = l.map GameNode.core)
    (P : GameNode → Prop) (hP : ∀ a b, a.core = b.core → P a → P b)
    (hl : ∀ x ∈ l, P x) : ∀ y ∈ l2, P y := by
  intro y hy
  rcases mem_core_of_map_core_eq hmap hy with ⟨x, hx, hcore⟩
  exact hP x y hcore (hl x hx)

theorem pred_of_core_map_if {l l2 : List GameNode} {nid : String}
    {repl : GameNode}
    (hmap : l2.map GameNode.core =
      l.map (fun x => if x.id = nid then repl.core else x.core))
    (P : GameNode → Prop) (hP : ∀ a b, a.core = b.core → P a → P b)
    (hl : ∀ x ∈ l, P x) (hrepl : P repl) : ∀ y ∈ l2, P y := by
  intro y hy
  have hmem : y.core ∈ l.map (fun x => if x.id = nid then repl.core else x.core) := by
    rw [← hmap]
    exact List.mem_map_of_mem GameNode.core hy
  rcases List.mem_map.mp hmem with ⟨x, hx, hcore⟩
  by_cases hid : x.id = nid
  · rw [if_pos hid] at hcore
    exact hP repl y hcore hrepl
  · rw [if_neg hid] at hcore
    exact hP x y hcore (hl x hx)

theorem pred_of_core_map_filter {l l2 : List GameNode} {nid : String}
    (hmap : l2.map GameNode.core =
      (l.filter (fun x => x.id != nid)).map GameNode.core)
    (P : GameNode → Prop) (hP : ∀ a b, a.core = b.core → P a → P b)
    (hl : ∀ x ∈ l, P x) : ∀ y ∈ l2, P y := by
  intro y hy
  rcases mem_core_of_map_core_eq hmap hy with ⟨x, hx, hcore⟩
  exact hP x y hcore (hl x (List.mem_of_mem_filter hx))

theorem overlapFind_facts (m : JsMath) (player : GameNode) (st : GameState)
    (n : GameNode) (h : overlapFind m player st = some n) :
    n ∈ st.nodes ∧ n.id ≠ player.id := by
  unfold overlapFind at h
  refine ⟨List.mem_of_find?_eq_some h, ?_⟩
  have hpred := List.find?_some h
  unfold overlapPred at hpred
  simp only [Bool.and_eq_true] at hpred
  exact bne_iff_ne.mp hpred.1

theorem findPlayer_facts (nodes : List GameNode) (p : GameNode)
    (h : findPlayer nodes = some p) :
    p ∈ nodes ∧ p.type = NodeType.player_consciousness := by
  unfold findPlayer at h
  refine ⟨List.mem_of_find?_eq_some h, ?_⟩
  have := List.find?_some h
  simpa using this

-- ---------------------------------------------------------------------------
-- Invariant predicates
-- ---------------------------------------------------------------------------

/-- All player-typed nodes share one id (spec data-model invariant: exactly
one node has the player type). -/
def OnePlayer (st : GameState) : Prop :=
  ∀ n ∈ st.nodes, ∀ p ∈ st.nodes,
    n.type = NodeType.player_consciousness →
    p.type = NodeType.player_consciousness → n.id = p.id

/-- Integrity bounds of the spec: every node keeps its current integrity
between zero and its maximum. -/
def IntegrityOK (st : GameState) : Prop :=
  ∀ n ∈ st.nodes, 0 ≤ n.currentIntegrity ∧ n.currentIntegrity ≤ n.maxIntegrity

/-- The sine oracle stays within the range of the real sine. -/
def SinBounded (m : JsMath) : Prop :=
  ∀ t : ℚ, -1 ≤ m.sin t ∧ m.sin t ≤ 1

theorem integrity_core_det (a b : GameNode) (h : a.core = b.core)
    (ha : 0 ≤ a.currentIntegrity ∧ a.currentIntegrity ≤ a.maxIntegrity) :
    0 ≤ b.currentIntegrity ∧ b.currentIntegrity ≤ b.maxIntegrity := by
  rw [← core_currentIntegrity a b h, ← core_maxIntegrity a b h]
  exact ha

theorem nodeCollisionPhase_integrity (m : JsMath) (env : Env)
    (player : GameNode) (st : GameState)
    (hpm : player ∈ st.nodes)
    (hpt : player.type = NodeType.player_consciousness)
    (hone : OnePlayer st)
    (hint : ∀ n ∈ st.nodes, 0 ≤ n.currentIntegrity ∧ n.currentIntegrity ≤ n.maxIntegrity) :
    ∀ y ∈ (nodeCollisionPhase m env player st).nodes,
      0 ≤ y.currentIntegrity ∧ y.currentIntegrity ≤ y.maxIntegrity := by
  unfold nodeCollisionPhase
  cases hov : overlapFind m player st with
  | none => exact hint
  | some n =>
    rcases overlapFind_facts m player st n hov with ⟨hnm, hne⟩
    show ∀ y ∈ (if n.integrityCooldown ≤ 0 then
        applyCollision m env player n st else st).nodes,
      0 ≤ y.currentIntegrity ∧ y.currentIntegrity ≤ y.maxIntegrity
    by_cases hcd : n.integrityCooldown ≤ 0
    · rw [if_pos hcd]
      by_cases hdead : (damagedNode n).currentIntegrity ≤ 0 ∧ n.type ≠ NodeType.asteroid
      · by_cases hstar : n.type = NodeType.star
        · refine pred_of_core_map_if
            (applyCollision_core_star m env player n st hdead.1 hstar) _
            integrity_core_det hint ?_
          have hn := hint n hnm
          exact ⟨le_trans hn.1 hn.2, le_refl _⟩
        · by_cases hplanet : planetLike n.type
          · exact pred_of_core_map_filter
              (applyCollision_core_planet m env player n st hdead.1 hplanet) _
              integrity_core_det hint
          · exact absurd
              (hone n hnm player hpm
                (type_eq_player_of_not_handled n.type hstar hplanet hdead.2) hpt)
              hne
      · refine pred_of_core_map_if
          (applyCollision_core_standard m env player n st hdead) _
          integrity_core_det hint ?_
        have hn := hint n hnm
        unfold damagedNode
        by_cases hast : n.type = NodeType.asteroid
        · simp only [hast]
          refine ⟨?_, ?_⟩ <;> simp [hn.1, hn.2]
        · rw [Decidable.not_and_iff_or_not] at hdead
          rcases hdead with hdead | hdead
          · have hlt : 0 < (damagedNode n).currentIntegrity := lt_of_not_le hdead
            unfold damagedNode at hlt
            rw [if_pos hast] at hlt
            constructor
            · simp only [if_pos hast]
              exact le_of_lt hlt
            · simp only [if_pos hast]
              linarith [hn.2]
          · exact absurd hast (by simpa using hdead)
    · rw [if_neg hcd]
      exact hint

theorem projectionPhase_integrity (m : JsMath) (env : Env) (width height : ℚ)
    (st : GameState) (hone : OnePlayer st) (hint : IntegrityOK st) :
    IntegrityOK (projectionPhase m env width height st) := by
  unfold projectionPhase
  cases hfp : findPlayer st.nodes with
  | none => exact hint
  | some player =>
    cases hps : st.projection.playerState with
    | IDLE => exact hint
    | AIMING_DIRECTION => exact hint
    | AIMING_POWER => exact hint
    | REFORMING => exact hint
    | PROJECTING =>
      show IntegrityOK (projectingTick m env width height player st)
      unfold projectingTick
      rcases findPlayer_facts st.nodes player hfp with ⟨hpm, hpt⟩
      have hcol : ∀ y ∈ (nodeCollisionPhase m env player
          (dustPhase m env width height player st)).nodes,
          0 ≤ y.currentIntegrity ∧ y.currentIntegrity ≤ y.maxIntegrity :=
        nodeCollisionPhase_integrity m env player
          (dustPhase m env width height player st) hpm hpt hone hint
      exact pred_of_core_map_eq
        (reformCheck_nodes_map_core m
          (nodeCollisionPhase m env player (dustPhase m env width height player st)))
        _ integrity_core_det hcol

theorem reformCheck_power (m : JsMath) (st : GameState) :
    (reformCheck m st).projection.power = st.projection.power := by
  unfold reformCheck
  cases h : findPlayer st.nodes with
  | none => rfl
  | some p =>
    by_cases hv : m.hypot p.vx p.vy < 8/10
    · simp only [if_pos hv]
    · simp only [if_neg hv]

theorem tick_power_bounds (m : JsMath) (env : Env) (width height : ℚ)
    (st : GameState) (hsin : SinBounded m)
    (hpw : 0 ≤ st.projection.power ∧ st.projection.power ≤ 100) :
    0 ≤ (tick m env width height st).projection.power ∧
      (tick m env width height st).projection.power ≤ 100 := by
  unfold tick
  by_cases hp : st.isPaused
  · simp only [if_pos hp]
    exact hpw
  · simp only [if_neg hp]
    rw [tickTail_projection]
    unfold projectionPhase
    cases hfp : findPlayer st.nodes with
    | none => exact hpw
    | some player =>
      cases hps : st.projection.playerState with
      | IDLE => exact hpw
      | AIMING_DIRECTION => exact hpw
      | REFORMING => exact hpw
      | AIMING_POWER =>
        show 0 ≤ (m.sin (env.now / (1000 / POWER_OSCILLATION_SPEED)) + 1) * 50 ∧
          (m.sin (env.now / (1000 / POWER_OSCILLATION_SPEED)) + 1) * 50 ≤ 100
        rcases hsin (env.now / (1000 / POWER_OSCILLATION_SPEED)) with ⟨hlo, hhi⟩
        constructor <;> nlinarith
      | PROJECTING =>
        show 0 ≤ (projectingTick m env width height player st).projection.power ∧
          (projectingTick m env width height player st).projection.power ≤ 100
        unfold projectingTick
        rw [reformCheck_power, nodeCollisionPhase_projection, dustPhase_projection]
        exact hpw

/-- Claim C5: one tick preserves the integrity bounds of every node and keeps
the projection power in the range 0 to 100 (the AIMING_POWER oscillation
lands in that range for any sine value in the unit band). -/
theorem c5_integrity_and_power_bounds (m : JsMath) (env : Env)
    (width height : ℚ) (st : GameState) (hsin : SinBounded m)
    (hone : OnePlayer st) (hint : IntegrityOK st)
    (hpw : 0 ≤ st.projection.power ∧ st.projection.power ≤ 100) :
    IntegrityOK (tick m env width height st) ∧
      (0 ≤ (tick m env width height st).projection.power ∧
        (tick m env width height st).projection.power ≤ 100) := by
  refine ⟨?_, tick_power_bounds m env width height st hsin hpw⟩
  unfold tick
  by_cases hp : st.isPaused
  · simp only [if_pos hp]
    exact hint
  · simp only [if_neg hp]
    exact pred_of_core_map_eq
      (tickTail_nodes_map_core m env _ (projectionPhase m env width height st))
      _ integrity_core_det
      (projectionPhase_integrity m env width height st hone hint)

/-- Witness for claim C5 at the concrete base world. -/
theorem c5_witness :
    IntegrityOK (tick mZero envZero 800 600 baseState) ∧
      (0 ≤ (tick mZero envZero 800 600 baseState).projection.power ∧
        (tick mZero envZero 800 600 baseState).projection.power ≤ 100) := by
  apply c5_integrity_and_power_bounds
  · intro t
    constructor <;> norm_num [mZero]
  · intro n hn p hp hnt hpt
    simp only [baseState, List.mem_singleton] at hn hp
    rw [hn, hp]
  · intro n hn
    simp only [baseState, List.mem_singleton] at hn
    rw [hn]
    norm_num [basePlayer]
  · norm_num [baseState]

-- ---------------------------------------------------------------------------
-- Helper lemmas: planet assimilation outcome
-- ---------------------------------------------------------------------------

/-- View of a satellite without its per-tick orbit phase: identity, type,
label, visual reference and orbit radius. -/
def Satellite.view (s : Satellite) : String × NodeType × String × Option String × ℚ :=
  (s.id, s.type, s.label, s.imageUrl, s.orbitRadius)

theorem satView_map_adv (l : List Satellite) :
    (l.map (fun s => { s with angle := s.angle + s.orbitSpeed })).map
        Satellite.view = l.map Satellite.view := by
  rw [List.map_map]
  apply List.map_congr_left
  intro s _
  rfl

theorem exists_core_partner {l l2 : List GameNode}
    (hmap : l2.map GameNode.core = l.map GameNode.core) {x : GameNode}
    (hx : x ∈ l) : ∃ y ∈ l2, y.core = x.core := by
  rcases List.mem_iff_get?.mp hx with ⟨i, hi⟩
  have h2 : (l2.get? i).map GameNode.core = (l.get? i).map GameNode.core := by
    rw [← get?_map, ← get?_map, hmap]
  rw [hi] at h2
  cases hy : l2.get? i with
  | none => rw [hy] at h2; simp at h2
  | some y =>
    rw [hy] at h2
    refine ⟨y, List.get?_mem hy, ?_⟩
    simpa using h2

theorem findPlayer_isSome_of_mem {l : List GameNode} {x : GameNode}
    (hx : x ∈ l) (ht : x.type = NodeType.player_consciousness) :
    ∃ q, findPlayer l = some q := by
  unfold findPlayer
  have hsome : (l.find? (fun n => decide (n.type = NodeType.player_consciousness))).isSome := by
    rw [List.find?_isSome]
    exact ⟨x, hx, by simp [ht]⟩
  rcases Option.isSome_iff_exists.mp hsome with ⟨q, hq⟩
  exact ⟨q, hq⟩

theorem mem_updNode_vel_ids {l : List GameNode} {pid : String} {a b : ℚ}
    {z : GameNode}
    (hz : z ∈ updNode l pid (fun q => { q with vx := a, vy := b })) :
    ∃ w ∈ l, w.id = z.id := by
  unfold updNode at hz
  rcases List.mem_map.mp hz with ⟨w, hw, hwz⟩
  refine ⟨w, hw, ?_⟩
  rw [← hwz]
  exact ((vel_upd_id_core pid a b w).1).symm

theorem applyCollision_satellites_planet (m : JsMath) (env : Env)
    (player node : GameNode) (st : GameState)
    (hdead : (damagedNode node).currentIntegrity ≤ 0)
    (hplanet : planetLike node.type) :
    (applyCollision m env player node st).satellites =
      st.satellites ++
        [{ id := node.id, type := node.type, imageUrl := node.imageUrl,
           label := node.label,
           orbitRadius := 60 + (st.satellites.length : ℚ) * 20,
           orbitSpeed := 2/100 + env.satSpeedRand * (1/100),
           angle := env.satAngleRand * m.pi * 2 }] := by
  unfold applyCollision
  rw [if_pos ⟨hdead, (planetLike_ne node.type hplanet).2.1⟩,
    if_neg (planetLike_ne node.type hplanet).1, if_pos hplanet]
  rfl

theorem applyCollision_nodes_planet (m : JsMath) (env : Env)
    (player node : GameNode) (st : GameState)
    (hdead : (damagedNode node).currentIntegrity ≤ 0)
    (hplanet : planetLike node.type) :
    (applyCollision m env player node st).nodes =
      (updNode st.nodes player.id
        (fun p => { p with vx := bounceVx m player node * (6/10),
                           vy := bounceVy m player node * (6/10) })).filter
        (fun x => x.id != node.id) := by
  unfold applyCollision
  rw [if_pos ⟨hdead, (planetLike_ne node.type hplanet).2.1⟩,
    if_neg (planetLike_ne node.type hplanet).1, if_pos hplanet]
  rfl

theorem tick_unpaused (m : JsMath) (env : Env) (width height : ℚ)
    (st : GameState) (hpause : st.isPaused = false) :
    tick m env width height st =
      tickTail m env (min width height * (3/2) / (st.zoomLevel + 1))
        (projectionPhase m env width height st) := by
  unfold tick
  rw [if_neg (by simp [hpause])]

theorem tick_planet_assimilation (m : JsMath) (env : Env) (width height : ℚ)
    (st : GameState) (p n : GameNode)
    (hpause : st.isPaused = false)
    (hps : st.projection.playerState = PlayerState.PROJECTING)
    (hfp : findPlayer st.nodes = some p)
    (hov : overlapFind m p st = some n)
    (hcd : n.integrityCooldown ≤ 0)
    (hplanet : planetLike n.type)
    (hdead : n.currentIntegrity ≤ 1) :
    (∀ x ∈ (tick m env width height st).nodes, x.id ≠ n.id) ∧
      (tick m env width height st).satellites.map Satellite.view =
        st.satellites.map Satellite.view ++
          [(n.id, n.type, n.label, n.imageUrl,
            60 + (st.satellites.length : ℚ) * 20)] ∧
      (∀ x ∈ (tick m env width height st).nodes, ∃ w ∈ st.nodes, w.id = x.id) := by
  have hdead2 : (damagedNode n).currentIntegrity ≤ 0 := by
    show (if n.type ≠ NodeType.asteroid then n.currentIntegrity - 1
      else n.currentIntegrity) ≤ 0
    rw [if_pos (planetLike_ne n.type hplanet).2.1]
    linarith
  have hcol : nodeCollisionPhase m env p (dustPhase m env width height p st) =
      applyCollision m env p n (dustPhase m env width height p st) := by
    unfold nodeCollisionPhase
    rw [show overlapFind m p (dustPhase m env width height p st) = some n from hov]
    exact if_pos hcd
  have hproj : projectionPhase m env width height st =
      reformCheck m (applyCollision m env p n (dustPhase m env width height p st)) := by
    rw [projectionPhase_PROJECTING m env width height st p hfp hps]
    unfold projectingTick
    rw [hcol]
  have htick : tick m env width height st =
      tickTail m env (min width height * (3/2) / (st.zoomLevel + 1))
        (reformCheck m (applyCollision m env p n (dustPhase m env width height p st))) := by
    rw [tick_unpaused m env width height st hpause, hproj]
  rcases findPlayer_facts st.nodes p hfp with ⟨hpm, hpt⟩
  have hne : n.id ≠ p.id := (overlapFind_facts m p st n hov).2
  have hmap1 : (tick m env width height st).nodes.map GameNode.core =
      (applyCollision m env p n (dustPhase m env width height p st)).nodes.map GameNode.core := by
    rw [htick, tickTail_nodes_map_core]
    exact reformCheck_nodes_map_core m _
  have hcnodes := applyCollision_nodes_planet m env p n
    (dustPhase m env width height p st) hdead2 hplanet
  rw [dustPhase_nodes] at hcnodes
  refine ⟨?_, ?_, ?_⟩
  · intro x hx
    rcases mem_core_of_map_core_eq hmap1 hx with ⟨y, hy, hyc⟩
    rw [hcnodes] at hy
    have hyne : y.id ≠ n.id := bne_iff_ne.mp (List.mem_filter.mp hy).2
    rw [← core_id y x hyc]
    exact hyne
  · have hsatChain := applyCollision_satellites_planet m env p n
      (dustPhase m env width height p st) hdead2 hplanet
    rw [dustPhase_satellites] at hsatChain
    have hp2mem : ({ p with vx := bounceVx m p n * (6/10), vy := bounceVy m p n * (6/10) } : GameNode) ∈
        updNode st.nodes p.id (fun q => { q with vx := bounceVx m p n * (6/10), vy := bounceVy m p n * (6/10) }) := by
      unfold updNode
      have hmm := List.mem_map_of_mem
        (fun q => if q.id = p.id then ({ q with vx := bounceVx m p n * (6/10), vy := bounceVy m p n * (6/10) } : GameNode) else q) hpm
      simpa using hmm
    have hp2col : ({ p with vx := bounceVx m p n * (6/10), vy := bounceVy m p n * (6/10) } : GameNode) ∈
        (applyCollision m env p n (dustPhase m env width height p st)).nodes := by
      rw [hcnodes]
      exact List.mem_filter.mpr ⟨hp2mem, bne_iff_ne.mpr (Ne.symm hne)⟩
    rcases exists_core_partner
      (reformCheck_nodes_map_core m
        (applyCollision m env p n (dustPhase m env width height p st))) hp2col with
      ⟨z, hz, hzc⟩
    have hzt : z.type = NodeType.player_consciousness := by
      rw [core_type z _ hzc]
      exact hpt
    rcases findPlayer_isSome_of_mem hz hzt with ⟨q, hq⟩
    have hsat1 : (tick m env width height st).satellites =
        (reformCheck m (applyCollision m env p n
          (dustPhase m env width height p st))).satellites.map
          (fun s => { s with angle := s.angle + s.orbitSpeed }) := by
      rw [htick, tickTail_satellites]
      unfold satellitePhase
      simp only [hq]
    rw [hsat1, satView_map_adv, reformCheck_satellites, hsatChain, List.map_append]
    rfl
  · intro x hx
    rcases mem_core_of_map_core_eq hmap1 hx with ⟨y, hy, hyc⟩
    rw [hcnodes] at hy
    rcases mem_updNode_vel_ids (List.mem_of_mem_filter hy) with ⟨w, hw, hwy⟩
    exact ⟨w, hw, by rw [hwy]; exact core_id y x hyc⟩

-- ---------------------------------------------------------------------------
-- Helper lemmas: integrity never rests at zero
-- ---------------------------------------------------------------------------

theorem nonzero_core_det (a b : GameNode) (h : a.core = b.core)
    (ha : a.type ≠ NodeType.asteroid → a.currentIntegrity ≠ 0) :
    b.type ≠ NodeType.asteroid → b.currentIntegrity ≠ 0 := by
  rw [← core_type a b h, ← core_currentIntegrity a b h]
  exact ha

theorem nodeCollisionPhase_nonzero (m : JsMath) (env : Env)
    (player : GameNode) (st : GameState)
    (hpm : player ∈ st.nodes)
    (hpt : player.type = NodeType.player_consciousness)
    (hone : OnePlayer st)
    (hint : ∀ x ∈ st.nodes, x.type ≠ NodeType.asteroid →
      1 ≤ x.currentIntegrity ∧ 1 ≤ x.maxIntegrity) :
    ∀ y ∈ (nodeCollisionPhase m env player st).nodes,
      y.type ≠ NodeType.asteroid → y.currentIntegrity ≠ 0 := by
  have hbase : ∀ x ∈ st.nodes, x.type ≠ NodeType.asteroid → x.currentIntegrity ≠ 0 := by
    intro x hx hxa
    have := (hint x hx hxa).1
    intro hcon
    rw [hcon] at this
    norm_num at this
  unfold nodeCollisionPhase
  cases hov : overlapFind m player st with
  | none => exact hbase
  | some n =>
    rcases overlapFind_facts m player st n hov with ⟨hnm, hne⟩
    show ∀ y ∈ (if n.integrityCooldown ≤ 0 then
        applyCollision m env player n st else st).nodes,
      y.type ≠ NodeType.asteroid → y.currentIntegrity ≠ 0
    by_cases hcd : n.integrityCooldown ≤ 0
    · rw [if_pos hcd]
      by_cases hdead : (damagedNode n).currentIntegrity ≤ 0 ∧ n.type ≠ NodeType.asteroid
      · by_cases hstar : n.type = NodeType.star
        · refine pred_of_core_map_if
            (applyCollision_core_star m env player n st hdead.1 hstar) _
            nonzero_core_det hbase ?_
          intro _
          show n.maxIntegrity ≠ 0
          have := (hint n hnm (by rw [hstar]; decide)).2
          intro hcon
          rw [hcon] at this
          norm_num at this
        · by_cases hplanet : planetLike n.type
          · exact pred_of_core_map_filter
              (applyCollision_core_planet m env player n st hdead.1 hplanet) _
              nonzero_core_det hbase
          · exact absurd
              (hone n hnm player hpm
                (type_eq_player_of_not_handled n.type hstar hplanet hdead.2) hpt)
              hne
      · refine pred_of_core_map_if
          (applyCollision_core_standard m env player n st hdead) _
          nonzero_core_det hbase ?_
        intro hna
        have hna2 : n.type ≠ NodeType.asteroid := hna
        rw [Decidable.not_and_iff_or_not] at hdead
        rcases hdead with hdead | hdead
        · have hlt : 0 < (damagedNode n).currentIntegrity := lt_of_not_le hdead
          exact ne_of_gt hlt
        · exact absurd hna2 (by simpa using hdead)
    · rw [if_neg hcd]
      exact hbase

theorem projectionPhase_nonzero (m : JsMath) (env : Env) (width height : ℚ)
    (st : GameState) (hone : OnePlayer st)
    (hint : ∀ x ∈ st.nodes, x.type ≠ NodeType.asteroid →
      1 ≤ x.currentIntegrity ∧ 1 ≤ x.maxIntegrity) :
    ∀ y ∈ (projectionPhase m env width height st).nodes,
      y.type ≠ NodeType.asteroid → y.currentIntegrity ≠ 0 := by
  have hbase : ∀ x ∈ st.nodes, x.type ≠ NodeType.asteroid → x.currentIntegrity ≠ 0 := by
    intro x hx hxa
    have := (hint x hx hxa).1
    intro hcon
    rw [hcon] at this
    norm_num at this
  unfold projectionPhase
  cases hfp : findPlayer st.nodes with
  | none => exact hbase
  | some player =>
    cases hps : st.projection.playerState with
    | IDLE => exact hbase
    | AIMING_DIRECTION => exact hbase
    | AIMING_POWER => exact hbase
    | REFORMING => exact hbase
    | PROJECTING =>
      show ∀ y ∈ (projectingTick m env width height player st).nodes,
        y.type ≠ NodeType.asteroid → y.currentIntegrity ≠ 0
      unfold projectingTick
      rcases findPlayer_facts st.nodes player hfp with ⟨hpm, hpt⟩
      have hcol := nodeCollisionPhase_nonzero m env player
        (dustPhase m env width height player st) hpm hpt hone hint
      exact pred_of_core_map_eq
        (reformCheck_nodes_map_core m
          (nodeCollisionPhase m env player (dustPhase m env width height player st)))
        _ nonzero_core_det hcol

theorem tick_star_supernova (m : JsMath) (env : Env) (width height : ℚ)
    (st : GameState) (p n : GameNode)
    (hpause : st.isPaused = false)
    (hps : st.projection.playerState = PlayerState.PROJECTING)
    (hfp : findPlayer st.nodes = some p)
    (hov : overlapFind m p st = some n)
    (hcd : n.integrityCooldown ≤ 0)
    (hstar : n.type = NodeType.star)
    (hdead : n.currentIntegrity ≤ 1) :
    (tick m env width height st).nodes.map GameNode.core =
      st.nodes.map
        (fun x => if x.id = n.id then (starReset n).core else x.core) := by
  have hdead2 : (damagedNode n).currentIntegrity ≤ 0 := by
    show (if n.type ≠ NodeType.asteroid then n.currentIntegrity - 1
      else n.currentIntegrity) ≤ 0
    rw [if_pos (by rw [hstar]; decide)]
    linarith
  have hcol : nodeCollisionPhase m env p (dustPhase m env width height p st) =
      applyCollision m env p n (dustPhase m env width height p st) := by
    unfold nodeCollisionPhase
    rw [show overlapFind m p (dustPhase m env width height p st) = some n from hov]
    exact if_pos hcd
  have hproj : projectionPhase m env width height st =
      reformCheck m (applyCollision m env p n (dustPhase m env width height p st)) := by
    rw [projectionPhase_PROJECTING m env width height st p hfp hps]
    unfold projectingTick
    rw [hcol]
  rw [tick_unpaused m env width height st hpause, hproj, tickTail_nodes_map_core,
    reformCheck_nodes_map_core]
  have hshape := applyCollision_core_star m env p n
    (dustPhase m env width height p st) hdead2 hstar
  rw [dustPhase_nodes] at hshape
  exact hshape

/-- Claim C3: after a tick no non-asteroid node rests in the registry with
integrity exactly zero; a star driven to zero integrity is reset to its
maximum with the long 600-tick cooldown, and a destroyed planet-like node is
removed with a satellite of matching identity, type, label and visual
reference created. -/
theorem c3_destroyed_nodes_never_linger (m : JsMath) (env : Env)
    (width height : ℚ) (st : GameState)
    (hone : OnePlayer st)
    (hint : ∀ x ∈ st.nodes, x.type ≠ NodeType.asteroid →
      1 ≤ x.currentIntegrity ∧ 1 ≤ x.maxIntegrity) :
    (∀ x ∈ (tick m env width height st).nodes,
      x.type ≠ NodeType.asteroid → x.currentIntegrity ≠ 0) ∧
    (∀ p n : GameNode, st.isPaused = false →
      st.projection.playerState = PlayerState.PROJECTING →
      findPlayer st.nodes = some p → overlapFind m p st = some n →
      n.integrityCooldown ≤ 0 → n.currentIntegrity ≤ 1 →
      (n.type = NodeType.star →
        (starReset n).currentIntegrity = n.maxIntegrity ∧
        (starReset n).integrityCooldown = 600 ∧
        (tick m env width height st).nodes.map GameNode.core =
          st.nodes.map
            (fun x => if x.id = n.id then (starReset n).core else x.core)) ∧
      (planetLike n.type →
        (∀ x ∈ (tick m env width height st).nodes, x.id ≠ n.id) ∧
        (tick m env width height st).satellites.map Satellite.view =
          st.satellites.map Satellite.view ++
            [(n.id, n.type, n.label, n.imageUrl,
              60 + (st.satellites.length : ℚ) * 20)])) := by
  constructor
  · unfold tick
    by_cases hp : st.isPaused
    · simp only [if_pos hp]
      intro x hx hxa
      have := (hint x hx hxa).1
      intro hcon
      rw [hcon] at this
      norm_num at this
    · simp only [if_neg hp]
      exact pred_of_core_map_eq
        (tickTail_nodes_map_core m env _ (projectionPhase m env width height st))
        _ nonzero_core_det
        (projectionPhase_nonzero m env width height st hone hint)
  · intro p n hpause hps hfp hov hcd hdead
    refine ⟨fun hstar => ⟨rfl, rfl, ?_⟩, fun hplanet => ?_⟩
    · exact tick_star_supernova m env width height st p n hpause hps hfp hov hcd hstar hdead
    · have h := tick_planet_assimilation m env width height st p n hpause hps hfp hov hcd
        hplanet hdead
      exact ⟨h.1, h.2.1⟩

/-- Witness for claim C3 at the concrete base world. -/
theorem c3_witness :
    basePlayer.type ≠ NodeType.asteroid ∧
    (∀ x ∈ (tick mZero envZero 800 600 baseState).nodes,
      x.type ≠ NodeType.asteroid → x.currentIntegrity ≠ 0) := by
  refine ⟨by decide,
    (c3_destroyed_nodes_never_linger mZero envZero 800 600 baseState ?_ ?_).1⟩
  · intro a ha b hb hat hbt
    simp only [baseState, List.mem_singleton] at ha hb
    rw [ha, hb]
  · intro x hx _
    simp only [baseState, List.mem_singleton] at hx
    rw [hx]
    norm_num [basePlayer]

/-- Claim C8: destroying a planet-like node removes it from the node registry
and, in the same tick, appends exactly one satellite carrying its id, type,
label and visual reference, with orbit radius 60 plus 20 per pre-existing
satellite; no entity id ends up in both the node and satellite collections. -/
theorem c8_assimilation_moves_node_to_satellite (m : JsMath) (env : Env)
    (width height : ℚ) (st : GameState) (p n : GameNode)
    (hpause : st.isPaused = false)
    (hps : st.projection.playerState = PlayerState.PROJECTING)
    (hfp : findPlayer st.nodes = some p)
    (hov : overlapFind m p st = some n)
    (hcd : n.integrityCooldown ≤ 0)
    (hplanet : planetLike n.type)
    (hdead : n.currentIntegrity ≤ 1)
    (hdisj : ∀ s ∈ st.satellites, ∀ x ∈ st.nodes, s.id ≠ x.id) :
    (∀ x ∈ (tick m env width height st).nodes, x.id ≠ n.id) ∧
      (tick m env width height st).satellites.map Satellite.view =
        st.satellites.map Satellite.view ++
          [(n.id, n.type, n.label, n.imageUrl,
            60 + (st.satellites.length : ℚ) * 20)] ∧
      (∀ s ∈ (tick m env width height st).satellites,
        ∀ x ∈ (tick m env width height st).nodes, s.id ≠ x.id) := by
  rcases tick_planet_assimilation m env width height st p n hpause hps hfp hov
    hcd hplanet hdead with ⟨hgone, hview, hsub⟩
  refine ⟨hgone, hview, ?_⟩
  intro s hs x hx
  have hsv : Satellite.view s ∈
      st.satellites.map Satellite.view ++
        [(n.id, n.type, n.label, n.imageUrl,
          60 + (st.satellites.length : ℚ) * 20)] := by
    rw [← hview]
    exact List.mem_map_of_mem Satellite.view hs
  rcases List.mem_append.mp hsv with hsv | hsv
  · rcases List.mem_map.mp hsv with ⟨s0, hs0, hs0v⟩
    have hsid : s0.id = s.id := congrArg Prod.fst hs0v
    rcases hsub x hx with ⟨w, hw, hwx⟩
    rw [← hsid, ← hwx]
    exact hdisj s0 hs0 w hw
  · have hsid : s.id = n.id := congrArg Prod.fst (List.mem_singleton.mp hsv)
    rw [hsid]
    exact fun hcon => hgone x hx hcon.symm

/-- Player node of the concrete assimilation run. -/
def c8Player : GameNode :=
  { basePlayer with vx := 5, vy := 0 }

/-- Planet destroyed by a single contact in the concrete assimilation run. -/
def c8Planet : GameNode :=
  { id := "tutorial_planet", label := "Silent World",
    type := NodeType.rocky_planet, x := 10, y := 0, vx := 0, vy := 0,
    radius := 25, connections := [], hasLife := false, imageUrl := none,
    maxIntegrity := 2, currentIntegrity := 1, integrityCooldown := 0 }

/-- World of the concrete assimilation run: the projecting player overlaps
the one-integrity planet. -/
def c8State : GameState :=
  { baseState with
    nodes := [c8Player, c8Planet]
    projection := { baseState.projection with playerState := PlayerState.PROJECTING } }

/-- Math oracle of the concrete assimilation run: exact at the one distance
query the overlap test makes. -/
def m8 : JsMath :=
  { sqrt := fun q => if q = 100 then 10 else 0, cos := fun _ => 0,
    sin := fun _ => 0, atan2 := fun _ _ => 0, pi := 0 }

/-- Witness for claim C8 on the concrete assimilation run. -/
theorem c8_witness :
    (∀ x ∈ (tick m8 envZero 800 600 c8State).nodes, x.id ≠ c8Planet.id) ∧
      (tick m8 envZero 800 600 c8State).satellites.map Satellite.view =
        c8State.satellites.map Satellite.view ++
          [(c8Planet.id, c8Planet.type, c8Planet.label, c8Planet.imageUrl,
            60 + (c8State.satellites.length : ℚ) * 20)] ∧
      (∀ s ∈ (tick m8 envZero 800 600 c8State).satellites,
        ∀ x ∈ (tick m8 envZero 800 600 c8State).nodes, s.id ≠ x.id) := by
  apply c8_assimilation_moves_node_to_satellite m8 envZero 800 600 c8State
    c8Player c8Planet
  · with_unfolding_all rfl
  · with_unfolding_all rfl
  · with_unfolding_all rfl
  · with_unfolding_all rfl
  · with_unfolding_all decide
  · exact Or.inl rfl
  · with_unfolding_all decide
  · intro s hs
    simp [c8State, baseState] at hs

-- ---------------------------------------------------------------------------
-- Claim C2: which node a PROJECTING tick resolves
-- ---------------------------------------------------------------------------

theorem map_iview_of_core {l l2 : List GameNode}
    (h : l2.map GameNode.core = l.map GameNode.core) :
    l2.map (fun x => (x.id, x.currentIntegrity)) =
      l.map (fun x => (x.id, x.currentIntegrity)) := by
  have h2 := congrArg
    (List.map (fun c : GameNode => (c.id, c.currentIntegrity))) h
  rw [List.map_map, List.map_map] at h2
  exact h2

theorem applyCollision_turnHitIds_standard (m : JsMath) (env : Env)
    (player node : GameNode) (st : GameState)
    (hlive : ¬ ((damagedNode node).currentIntegrity ≤ 0 ∧
      node.type ≠ NodeType.asteroid)) :
    (applyCollision m env player node st).turnHitIds =
      if node.id ∈ st.turnHitIds then st.turnHitIds
      else st.turnHitIds ++ [node.id] := by
  unfold applyCollision
  rw [if_neg hlive]
  unfold standardHit
  dsimp only
  by_cases hmem : node.id ∈ st.turnHitIds
  · rw [show st.turnHitIds.contains (damagedNode node).id = true from
      List.elem_eq_true_of_mem hmem, if_pos rfl, if_pos hmem]
  · have hc : st.turnHitIds.contains node.id = false := by simp [hmem]
    rw [show st.turnHitIds.contains (damagedNode node).id = false from hc,
      if_neg Bool.false_ne_true, if_neg hmem]
    rfl

/-- Following the spec's words for claim C2: the first node, in registry
order and excluding the player, whose center distance is below the sum of
radii AND whose invulnerability cooldown has expired. -/
def specFirstQualifying (m : JsMath) (player : GameNode) (st : GameState) :
    Option GameNode :=
  st.nodes.find?
    (fun x => overlapPred m player x && decide (x.integrityCooldown ≤ 0))

/-- Following the spec's words for claim C2, specialised to a damaged-but-
alive standard hit on the qualifying node: the tick resolves the collision
against the first node that is both overlapping and off cooldown, so exactly
that node loses one integrity point. -/
def C2Claim (m : JsMath) (env : Env) (width height : ℚ) (st : GameState) :
    Prop :=
  ∀ p q : GameNode, findPlayer st.nodes = some p →
    st.projection.playerState = PlayerState.PROJECTING →
    specFirstQualifying m p st = some q →
    q.type ≠ NodeType.asteroid → 1 < q.currentIntegrity →
    (tick m env width height st).nodes.map
        (fun x => (x.id, x.currentIntegrity)) =
      st.nodes.map (fun x =>
        (x.id, if x.id = q.id then x.currentIntegrity - 1
               else x.currentIntegrity))

/-- Projecting player of the concrete blocked-collision run. -/
def c2Player : GameNode := { basePlayer with vx := 5 }

/-- First overlapping node of the run: still on invulnerability cooldown. -/
def c2NodeA : GameNode :=
  { id := "a", label := "A", type := NodeType.rocky_planet, x := 4, y := 0,
    vx := 0, vy := 0, radius := 5, connections := [], hasLife := false,
    imageUrl := none, maxIntegrity := 2, currentIntegrity := 2,
    integrityCooldown := 5 }

/-- Second overlapping node of the run: cooldown expired, so it is the first
node qualifying under the spec's reading. -/
def c2NodeB : GameNode :=
  { id := "b", label := "B", type := NodeType.rocky_planet, x := -4, y := 0,
    vx := 0, vy := 0, radius := 5, connections := [], hasLife := false,
    imageUrl := none, maxIntegrity := 2, currentIntegrity := 2,
    integrityCooldown := 0 }

/-- World of the blocked-collision run. -/
def c2State : GameState :=
  { baseState with
    nodes := [c2Player, c2NodeA, c2NodeB]
    projection := { baseState.projection with
      playerState := PlayerState.PROJECTING } }

/-- Math oracle of the blocked-collision run, exact at every queried point. -/
def m2 : JsMath :=
  { sqrt := fun q => if q = 16 then 4 else if q = 25 then 5 else 0,
    cos := fun _ => 0, sin := fun _ => 0, atan2 := fun _ _ => 0, pi := 0 }

/-- Counterexample to claim C2 as stated: node B overlaps the player with an
expired cooldown, so under the claim the tick should resolve a collision
against B and decrement its integrity; the source loop instead breaks at the
first overlapping node A, still on cooldown, and resolves nothing. -/
theorem c2_counterexample : ¬ C2Claim m2 envZero 800 600 c2State := by
  intro h
  have hfp : findPlayer c2State.nodes = some c2Player := by
    with_unfolding_all rfl
  have hq : specFirstQualifying m2 c2Player c2State = some c2NodeB := by
    with_unfolding_all rfl
  have := h c2Player c2NodeB hfp rfl hq (by decide)
    (by with_unfolding_all decide)
  exact absurd this (by with_unfolding_all decide)

/-- Claim C2 amended: the collision loop stops at the first node within
collision distance regardless of its cooldown; when that node is still on
cooldown no collision is resolved at all this tick, and when its cooldown has
expired the collision is resolved against exactly that node (stated here for
the damaged-but-alive standard hit). -/
theorem c2_first_overlap_wins (m : JsMath) (env : Env) (width height : ℚ)
    (st : GameState) (p n : GameNode)
    (hpause : st.isPaused = false)
    (hps : st.projection.playerState = PlayerState.PROJECTING)
    (hfp : findPlayer st.nodes = some p)
    (hov : overlapFind m p st = some n) :
    (0 < n.integrityCooldown →
      (tick m env width height st).nodes.map
          (fun x => (x.id, x.currentIntegrity)) =
        st.nodes.map (fun x => (x.id, x.currentIntegrity)) ∧
      (tick m env width height st).turnHitIds = st.turnHitIds) ∧
    (n.integrityCooldown ≤ 0 → n.type ≠ NodeType.asteroid →
      1 < n.currentIntegrity →
      (tick m env width height st).nodes.map
          (fun x => (x.id, x.currentIntegrity)) =
        st.nodes.map (fun x =>
          (x.id, if x.id = n.id then n.currentIntegrity - 1
                 else x.currentIntegrity)) ∧
      (tick m env width height st).turnHitIds =
        (if n.id ∈ st.turnHitIds then st.turnHitIds
         else st.turnHitIds ++ [n.id])) := by
  constructor
  · intro hcd
    have hcol : nodeCollisionPhase m env p (dustPhase m env width height p st) =
        dustPhase m env width height p st := by
      unfold nodeCollisionPhase
      rw [show overlapFind m p (dustPhase m env width height p st) = some n from hov]
      exact if_neg (not_le.mpr hcd)
    have hproj : projectionPhase m env width height st =
        reformCheck m (dustPhase m env width height p st) := by
      rw [projectionPhase_PROJECTING m env width height st p hfp hps]
      unfold projectingTick
      rw [hcol]
    constructor
    · apply map_iview_of_core
      rw [tick_unpaused m env width height st hpause, hproj,
        tickTail_nodes_map_core, reformCheck_nodes_map_core, dustPhase_nodes]
    · rw [tick_unpaused m env width height st hpause, hproj,
        tickTail_turnHitIds, reformCheck_turnHitIds, dustPhase_turnHitIds]
  · intro hcd hast hlive1
    have hlive : ¬ ((damagedNode n).currentIntegrity ≤ 0 ∧
        n.type ≠ NodeType.asteroid) := by
      intro hcon
      have h2 : (damagedNode n).currentIntegrity =
          n.currentIntegrity - 1 := by
        show (if n.type ≠ NodeType.asteroid then n.currentIntegrity - 1
          else n.currentIntegrity) = n.currentIntegrity - 1
        rw [if_pos hast]
      rw [h2] at hcon
      linarith [hcon.1]
    have hcol : nodeCollisionPhase m env p (dustPhase m env width height p st) =
        applyCollision m env p n (dustPhase m env width height p st) := by
      unfold nodeCollisionPhase
      rw [show overlapFind m p (dustPhase m env width height p st) = some n from hov]
      exact if_pos hcd
    have hproj : projectionPhase m env width height st =
        reformCheck m (applyCollision m env p n (dustPhase m env width height p st)) := by
      rw [projectionPhase_PROJECTING m env width height st p hfp hps]
      unfold projectingTick
      rw [hcol]
    constructor
    · have hshape := applyCollision_core_standard m env p n
        (dustPhase m env width height p st) hlive
      rw [dustPhase_nodes] at hshape
      have hiv : (tick m env width height st).nodes.map
          (fun x => (x.id, x.currentIntegrity)) =
          (st.nodes.map (fun x => if x.id = n.id then (damagedNode n).core
            else x.core)).map
            (fun c => (c.id, c.currentIntegrity)) := by
        have hcoreeq : (tick m env width height st).nodes.map GameNode.core =
            st.nodes.map (fun x => if x.id = n.id then (damagedNode n).core
              else x.core) := by
          rw [tick_unpaused m env width height st hpause, hproj,
            tickTail_nodes_map_core, reformCheck_nodes_map_core]
          exact hshape
        have h2 := congrArg
          (List.map (fun c : GameNode => (c.id, c.currentIntegrity))) hcoreeq
        rw [List.map_map] at h2
        exact h2
      rw [hiv, List.map_map]
      apply List.map_congr_left
      intro x _
      by_cases hx : x.id = n.id
      · simp only [Function.comp, if_pos hx]
        show ((damagedNode n).id, (damagedNode n).currentIntegrity) =
          (x.id, n.currentIntegrity - 1)
        have h2 : (damagedNode n).currentIntegrity = n.currentIntegrity - 1 := by
          show (if n.type ≠ NodeType.asteroid then n.currentIntegrity - 1
            else n.currentIntegrity) = n.currentIntegrity - 1
          rw [if_pos hast]
        rw [h2]
        have h3 : (damagedNode n).id = n.id := rfl
        rw [h3, hx]
      · simp only [Function.comp, if_neg hx]
        rfl
    · rw [tick_unpaused m env width height st hpause, hproj,
        tickTail_turnHitIds, reformCheck_turnHitIds,
        applyCollision_turnHitIds_standard m env p n _ hlive,
        dustPhase_turnHitIds]

/-- Witness for the amended claim C2 on the blocked-collision run: node A
overlaps first but is on cooldown, so the tick changes no integrity and adds
nothing to the per-launch hit set. -/
theorem c2_witness :
    (tick m2 envZero 800 600 c2State).nodes.map
        (fun x => (x.id, x.currentIntegrity)) =
      c2State.nodes.map (fun x => (x.id, x.currentIntegrity)) ∧
    (tick m2 envZero 800 600 c2State).turnHitIds = c2State.turnHitIds :=
  (c2_first_overlap_wins m2 envZero 800 600 c2State c2Player c2NodeA
    (by with_unfolding_all rfl) rfl (by with_unfolding_all rfl)
    (by with_unfolding_all rfl)).1 (by norm_num [c2NodeA])

-- ---------------------------------------------------------------------------
-- Claim C6: boundary containment and reflection
-- ---------------------------------------------------------------------------

/-- Following the spec's words for claim C6, player part: the post-reflection
speed equals the pre-reflection speed times a restitution factor strictly
greater than one. -/
def C6PlayerClaim (m : JsMath) (worldRadius : ℚ) (node : GameNode) : Prop :=
  ∃ c : ℚ, 1 < c ∧
    (boundaryCheck m worldRadius node).1.vx * (boundaryCheck m worldRadius node).1.vx +
      (boundaryCheck m worldRadius node).1.vy * (boundaryCheck m worldRadius node).1.vy =
    c * c * (node.vx * node.vx + node.vy * node.vy)

/-- Player node of the concrete grazing-bounce run: on the far side of the
boundary with a purely tangential velocity. -/
def c6Node : GameNode :=
  { basePlayer with x := 600, y := 0, vx := 0, vy := 3 }

/-- Math oracle of the grazing-bounce run, exact at every queried point. -/
def m6 : JsMath :=
  { sqrt := fun q => if q = 360000 then 600 else 0,
    cos := fun q => if q = 0 then 1 else 0,
    sin := fun _ => 0, atan2 := fun _ _ => 0, pi := 0 }

/-- Counterexample to claim C6 as stated: a player beyond the boundary whose
velocity is tangent to it is reflected with its speed unchanged, so no
restitution factor strictly greater than one relates the two speeds. -/
theorem c6_counterexample :
    m6.sqrt (c6Node.x * c6Node.x + c6Node.y * c6Node.y) > 400 - c6Node.radius ∧
    ¬ C6PlayerClaim m6 400 c6Node := by
  constructor
  · norm_num [m6, c6Node, basePlayer]
  · rintro ⟨c, hc, he⟩
    have hval : (boundaryCheck m6 400 c6Node).1.vx *
          (boundaryCheck m6 400 c6Node).1.vx +
        (boundaryCheck m6 400 c6Node).1.vy *
          (boundaryCheck m6 400 c6Node).1.vy = 9 := by
      norm_num [boundaryCheck, m6, c6Node, basePlayer]
    have hpre : c6Node.vx * c6Node.vx + c6Node.vy * c6Node.vy = 9 := by
      norm_num [c6Node, basePlayer]
    rw [hval, hpre] at he
    nlinarith

/-- Claim C6 amended: a node beyond the boundary is repositioned exactly onto
the boundary circle; the player is reflected about the outward normal scaled
by 2.2, which adds 11/25 times the squared radial velocity component to the
squared speed (so the speed never drops, and grows strictly only when the
radial component is nonzero), while every other node has its velocity scaled
by minus one half, i.e. a restitution factor of 1/2 < 1. -/
theorem c6_boundary_reflection (m : JsMath) (worldRadius : ℚ) (node : GameNode)
    (hbeyond : m.sqrt (node.x * node.x + node.y * node.y) >
      worldRadius - node.radius)
    (htrig : m.cos (m.atan2 node.y node.x) * m.cos (m.atan2 node.y node.x) +
      m.sin (m.atan2 node.y node.x) * m.sin (m.atan2 node.y node.x) = 1) :
    ((boundaryCheck m worldRadius node).1.x * (boundaryCheck m worldRadius node).1.x +
      (boundaryCheck m worldRadius node).1.y * (boundaryCheck m worldRadius node).1.y =
      (worldRadius - node.radius) * (worldRadius - node.radius)) ∧
    (node.type = NodeType.player_consciousness →
      (boundaryCheck m worldRadius node).1.vx * (boundaryCheck m worldRadius node).1.vx +
        (boundaryCheck m worldRadius node).1.vy * (boundaryCheck m worldRadius node).1.vy =
      node.vx * node.vx + node.vy * node.vy +
        (11/25) * ((node.vx * m.cos (m.atan2 node.y node.x) +
          node.vy * m.sin (m.atan2 node.y node.x)) *
          (node.vx * m.cos (m.atan2 node.y node.x) +
          node.vy * m.sin (m.atan2 node.y node.x))) ∧
      node.vx * node.vx + node.vy * node.vy ≤
        (boundaryCheck m worldRadius node).1.vx * (boundaryCheck m worldRadius node).1.vx +
        (boundaryCheck m worldRadius node).1.vy * (boundaryCheck m worldRadius node).1.vy) ∧
    (node.type ≠ NodeType.player_consciousness →
      (boundaryCheck m worldRadius node).1.vx * (boundaryCheck m worldRadius node).1.vx +
        (boundaryCheck m worldRadius node).1.vy * (boundaryCheck m worldRadius node).1.vy =
      (1/2) * (1/2) * (node.vx * node.vx + node.vy * node.vy)) := by
  unfold boundaryCheck
  rw [if_pos hbeyond]
  by_cases ht : node.type = NodeType.player_consciousness
  · rw [if_pos ht]
    dsimp only
    have hpos : m.cos (m.atan2 node.y node.x) * (worldRadius - node.radius) *
          (m.cos (m.atan2 node.y node.x) * (worldRadius - node.radius)) +
        m.sin (m.atan2 node.y node.x) * (worldRadius - node.radius) *
          (m.sin (m.atan2 node.y node.x) * (worldRadius - node.radius)) =
        (worldRadius - node.radius) * (worldRadius - node.radius) := by
      linear_combination ((worldRadius - node.radius) *
        (worldRadius - node.radius)) * htrig
    have hspeed : (node.vx - 22/10 *
          (node.vx * m.cos (m.atan2 node.y node.x) +
            node.vy * m.sin (m.atan2 node.y node.x)) * m.cos (m.atan2 node.y node.x)) *
        (node.vx - 22/10 *
          (node.vx * m.cos (m.atan2 node.y node.x) +
            node.vy * m.sin (m.atan2 node.y node.x)) * m.cos (m.atan2 node.y node.x)) +
        (node.vy - 22/10 *
          (node.vx * m.cos (m.atan2 node.y node.x) +
            node.vy * m.sin (m.atan2 node.y node.x)) * m.sin (m.atan2 node.y node.x)) *
        (node.vy - 22/10 *
          (node.vx * m.cos (m.atan2 node.y node.x) +
            node.vy * m.sin (m.atan2 node.y node.x)) * m.sin (m.atan2 node.y node.x)) =
        node.vx * node.vx + node.vy * node.vy +
          (11/25) * ((node.vx * m.cos (m.atan2 node.y node.x) +
            node.vy * m.sin (m.atan2 node.y node.x)) *
            (node.vx * m.cos (m.atan2 node.y node.x) +
            node.vy * m.sin (m.atan2 node.y node.x))) := by
      linear_combination ((121/25) *
        ((node.vx * m.cos (m.atan2 node.y node.x) +
          node.vy * m.sin (m.atan2 node.y node.x)) *
         (node.vx * m.cos (m.atan2 node.y node.x) +
          node.vy * m.sin (m.atan2 node.y node.x)))) * htrig
    refine ⟨hpos, fun _ => ⟨hspeed, ?_⟩, fun hcon => absurd ht hcon⟩
    rw [hspeed]
    nlinarith [mul_self_nonneg (node.vx * m.cos (m.atan2 node.y node.x) +
      node.vy * m.sin (m.atan2 node.y node.x))]
  · rw [if_neg ht]
    dsimp only
    have hpos : m.cos (m.atan2 node.y node.x) * (worldRadius - node.radius) *
          (m.cos (m.atan2 node.y node.x) * (worldRadius - node.radius)) +
        m.sin (m.atan2 node.y node.x) * (worldRadius - node.radius) *
          (m.sin (m.atan2 node.y node.x) * (worldRadius - node.radius)) =
        (worldRadius - node.radius) * (worldRadius - node.radius) := by
      linear_combination ((worldRadius - node.radius) *
        (worldRadius - node.radius)) * htrig
    refine ⟨hpos, fun hcon => absurd hcon ht, fun _ => by ring⟩

/-- Witness for the amended claim C6 at a concrete beyond-boundary player. -/
theorem c6_witness :
    ((boundaryCheck m6 400 c6Node).1.x * (boundaryCheck m6 400 c6Node).1.x +
      (boundaryCheck m6 400 c6Node).1.y * (boundaryCheck m6 400 c6Node).1.y =
      (400 - c6Node.radius) * (400 - c6Node.radius)) ∧
    ((boundaryCheck m6 400 c6Node).1.vx * (boundaryCheck m6 400 c6Node).1.vx +
      (boundaryCheck m6 400 c6Node).1.vy * (boundaryCheck m6 400 c6Node).1.vy =
      c6Node.vx * c6Node.vx + c6Node.vy * c6Node.vy +
        (11/25) * ((c6Node.vx * m6.cos (m6.atan2 c6Node.y c6Node.x) +
          c6Node.vy * m6.sin (m6.atan2 c6Node.y c6Node.x)) *
          (c6Node.vx * m6.cos (m6.atan2 c6Node.y c6Node.x) +
          c6Node.vy * m6.sin (m6.atan2 c6Node.y c6Node.x)))) := by
  have h := c6_boundary_reflection m6 400 c6Node
    (by norm_num [m6, c6Node, basePlayer])
    (by norm_num [m6, c6Node, basePlayer])
  exact ⟨h.1, (h.2.1 rfl).1⟩

-- ---------------------------------------------------------------------------
-- Claim C9: what an IDLE tick changes
-- ---------------------------------------------------------------------------

theorem tickTail_spaceDust (m : JsMath) (env : Env) (worldRadius : ℚ)
    (st : GameState) :
    (tickTail m env worldRadius st).spaceDust =
      st.spaceDust.map (fun d => { d with x := d.x + d.vx, y := d.y + d.vy }) := rfl

/-- Asteroid of the concrete IDLE-drift run, resting beyond the playable
boundary so the containment step repositions it. -/
def c9Asteroid : GameNode :=
  { id := "asteroid_ring_0", label := "Asteroid", type := NodeType.asteroid,
    x := 890, y := 0, vx := 0, vy := 0, radius := 15, connections := [],
    hasLife := false, imageUrl := none, maxIntegrity := 1000,
    currentIntegrity := 1000, integrityCooldown := 0 }

/-- World of the IDLE-drift run. -/
def c9State : GameState :=
  { baseState with nodes := [basePlayer, c9Asteroid] }

/-- Math oracle of the IDLE-drift run, exact at every queried point. -/
def m9 : JsMath :=
  { sqrt := fun q => if q = 792100 then 890 else 0,
    cos := fun q => if q = 0 then 1 else 0,
    sin := fun _ => 0, atan2 := fun _ _ => 0, pi := 0 }

/-- Counterexample to claim C9 as stated: with the player IDLE and no player
activity, a single tick still moves a non-player node (the boundary
containment clamps the out-of-bounds asteroid from x = 890 to x = 885), so
entity positions change beyond dust drift and passive accrual. -/
theorem c9_counterexample :
    c9State.projection.playerState = PlayerState.IDLE ∧
    (tick m9 envZero 800 600 c9State).projection.playerState =
      PlayerState.IDLE ∧
    c9State.nodes.map (fun x => (x.id, x.x, x.y)) =
      [("player_consciousness", 0, 0), ("asteroid_ring_0", 890, 0)] ∧
    (tick m9 envZero 800 600 c9State).nodes.map (fun x => (x.id, x.x, x.y)) =
      [("player_consciousness", 0, 0), ("asteroid_ring_0", 885, 0)] ∧
    (tick m9 envZero 800 600 c9State).nodes.map (fun x => (x.id, x.x, x.y)) ≠
      c9State.nodes.map (fun x => (x.id, x.x, x.y)) := by
  refine ⟨?_, ?_, ?_, ?_, ?_⟩
  · with_unfolding_all rfl
  · rw [tick_unpaused m9 envZero 800 600 c9State (by with_unfolding_all rfl),
      projectionPhase_IDLE m9 envZero 800 600 c9State (by with_unfolding_all rfl),
      tickTail_projection]
    with_unfolding_all rfl
  · norm_num [c9State, baseState, basePlayer, c9Asteroid]
  · rw [tick_unpaused m9 envZero 800 600 c9State (by with_unfolding_all rfl),
      projectionPhase_IDLE m9 envZero 800 600 c9State (by with_unfolding_all rfl),
      tickTail_nodes]
    norm_num [physLoop, physStep, integrateNode, gravityFromOthers,
      boundaryCheck, starOrbSpawn, c9State, baseState, basePlayer, c9Asteroid,
      m9, envZero, List.range_succ, updNode]
    decide
  · rw [tick_unpaused m9 envZero 800 600 c9State (by with_unfolding_all rfl),
      projectionPhase_IDLE m9 envZero 800 600 c9State (by with_unfolding_all rfl),
      tickTail_nodes]
    norm_num [physLoop, physStep, integrateNode, gravityFromOthers,
      boundaryCheck, starOrbSpawn, c9State, baseState, basePlayer, c9Asteroid,
      m9, envZero, List.range_succ, updNode]
    decide

/-- Claim C9 amended: an IDLE tick with the player inside the boundary keeps
the player node (hence its position) and the projection record unchanged,
adds exactly the flat base rate to knowledge, and drifts every dust particle
by its own velocity; non-player nodes, however, keep moving under the
attraction, damping and boundary-containment integrator even while IDLE. -/
theorem c9_idle_tick_effects (m : JsMath) (env : Env) (width height : ℚ)
    (st : GameState) (p : GameNode)
    (hpause : st.isPaused = false)
    (hidle : st.projection.playerState = PlayerState.IDLE)
    (hfp : findPlayer st.nodes = some p)
    (honly : ∀ x ∈ st.nodes, x.type = NodeType.player_consciousness → x = p)
    (hin : ¬ m.sqrt (p.x * p.x + p.y * p.y) >
      min width height * (3/2) / (st.zoomLevel + 1) - p.radius) :
    findPlayer (tick m env width height st).nodes = some p ∧
    (tick m env width height st).projection = st.projection ∧
    (tick m env width height st).knowledge =
      st.knowledge + BASE_KNOWLEDGE_RATE ∧
    (tick m env width height st).spaceDust =
      st.spaceDust.map (fun d => { d with x := d.x + d.vx, y := d.y + d.vy }) := by
  have hproj : projectionPhase m env width height st = st :=
    projectionPhase_IDLE m env width height st hidle
  have htick : tick m env width height st =
      tickTail m env (min width height * (3/2) / (st.zoomLevel + 1)) st := by
    rw [tick_unpaused m env width height st hpause, hproj]
  have hpt : p.type = NodeType.player_consciousness :=
    (findPlayer_facts st.nodes p hfp).2
  refine ⟨?_, by rw [htick, tickTail_projection],
    by rw [htick, tickTail_knowledge], by rw [htick, tickTail_spaceDust]⟩
  have hflag : decide (st.projection.playerState = PlayerState.PROJECTING) = false := by
    rw [hidle]
    decide
  have hnodes : (tick m env width height st).nodes =
      (physLoop m env (min width height * (3/2) / (st.zoomLevel + 1)) false
        (List.range st.nodes.length)
        { nodes := st.nodes, orbs := st.energyOrbs, shake := st.screenShake }).nodes := by
    rw [htick, tickTail_nodes, hflag]
  rw [hnodes]
  have heq := findPlayer_eq_of_pointwise st.nodes
    (physLoop m env (min width height * (3/2) / (st.zoomLevel + 1)) false
      (List.range st.nodes.length)
      { nodes := st.nodes, orbs := st.energyOrbs, shake := st.screenShake }).nodes
    (physLoop_map_core m env _ false (List.range st.nodes.length)
      { nodes := st.nodes, orbs := st.energyOrbs, shake := st.screenShake }).symm
    ?_
  · rw [heq, hfp]
  · intro j x x' hx hx' hxt
    have hxp : x = p := honly x (List.get?_mem hx) hxt
    rw [hxp] at hx
    have := physLoop_get_fixed m env
      (min width height * (3/2) / (st.zoomLevel + 1)) false p hpt rfl hin
      (List.range st.nodes.length)
      { nodes := st.nodes, orbs := st.energyOrbs, shake := st.screenShake } j hx
    rw [this] at hx'
    injection hx' with h2
    rw [hxp]
    exact h2.symm

/-- Witness for the amended C9 theorem at the concrete IDLE run. -/
theorem c9_witness :
    findPlayer (tick m9 envZero 800 600 c9State).nodes = some basePlayer ∧
    (tick m9 envZero 800 600 c9State).projection = c9State.projection ∧
    (tick m9 envZero 800 600 c9State).knowledge =
      c9State.knowledge + BASE_KNOWLEDGE_RATE ∧
    (tick m9 envZero 800 600 c9State).spaceDust =
      c9State.spaceDust.map (fun d => { d with x := d.x + d.vx, y := d.y + d.vy }) :=
  c9_idle_tick_effects m9 envZero 800 600 c9State basePlayer
    (by with_unfolding_all rfl) (by with_unfolding_all rfl)
    (by with_unfolding_all rfl) (by with_unfolding_all decide)
    (by norm_num [m9, c9State, baseState, basePlayer])

-- ---------------------------------------------------------------------------
-- Helper lemmas: orb collection bookkeeping
-- ---------------------------------------------------------------------------

/-- The physics accumulator a tick tail threads into orb collection. -/
def tickAcc (m : JsMath) (env : Env) (worldRadius : ℚ) (st : GameState) :
    PhysAcc :=
  physLoop m env worldRadius
    (decide (st.projection.playerState = PlayerState.PROJECTING))
    (List.range st.nodes.length)
    { nodes := st.nodes, orbs := st.energyOrbs, shake := st.screenShake }

theorem tickTail_nodes_acc (m : JsMath) (env : Env) (worldRadius : ℚ)
    (st : GameState) :
    (tickTail m env worldRadius st).nodes = (tickAcc m env worldRadius st).nodes := rfl

theorem tickTail_energyOrbs (m : JsMath) (env : Env) (worldRadius : ℚ)
    (st : GameState) :
    (tickTail m env worldRadius st).energyOrbs =
      match findPlayer (tickAcc m env worldRadius st).nodes with
      | none => (tickAcc m env worldRadius st).orbs
      | some p =>
        (tickAcc m env worldRadius st).orbs.filter (fun o => !(orbHit m p o)) := rfl

theorem tickTail_energy (m : JsMath) (env : Env) (worldRadius : ℚ)
    (st : GameState) :
    (tickTail m env worldRadius st).energy =
      match findPlayer (tickAcc m env worldRadius st).nodes with
      | none =>
        (match findPlayer st.nodes with
         | none => st.energy
         | some _ => st.energy + (st.satellites.length : ℚ) * (1/10)) +
          ((st.nodes.filter (fun n => decide (n.type = NodeType.star))).length : ℚ) *
            STAR_ENERGY_RATE
      | some p =>
        ((match findPlayer st.nodes with
          | none => st.energy
          | some _ => st.energy + (st.satellites.length : ℚ) * (1/10)) +
          ((st.nodes.filter (fun n => decide (n.type = NodeType.star))).length : ℚ) *
            STAR_ENERGY_RATE) +
          (((tickAcc m env worldRadius st).orbs.filter (orbHit m p)).map
            EnergyOrb.value).sum := rfl

theorem tickTail_no_orb_in_range (m : JsMath) (env : Env) (worldRadius : ℚ)
    (st : GameState) :
    ∀ q, findPlayer (tickTail m env worldRadius st).nodes = some q →
      ∀ o ∈ (tickTail m env worldRadius st).energyOrbs, orbHit m q o = false := by
  intro q hq o ho
  rw [tickTail_nodes_acc] at hq
  rw [tickTail_energyOrbs, hq] at ho
  have := List.of_mem_filter ho
  simpa using this

theorem findPlayer_physLoop_fixed (m : JsMath) (env : Env) (worldRadius : ℚ)
    (p : GameNode) (nodes : List GameNode) (orbs : List EnergyOrb)
    (shake : ScreenShake)
    (hfp : findPlayer nodes = some p)
    (honly : ∀ x ∈ nodes, x.type = NodeType.player_consciousness → x = p)
    (hin : ¬ m.sqrt (p.x * p.x + p.y * p.y) > worldRadius - p.radius) :
    findPlayer (physLoop m env worldRadius false (List.range nodes.length)
      { nodes := nodes, orbs := orbs, shake := shake }).nodes = some p := by
  have hpt : p.type = NodeType.player_consciousness := (findPlayer_facts nodes p hfp).2
  have heq := findPlayer_eq_of_pointwise nodes
    (physLoop m env worldRadius false (List.range nodes.length)
      { nodes := nodes, orbs := orbs, shake := shake }).nodes
    (physLoop_map_core m env _ false (List.range nodes.length)
      { nodes := nodes, orbs := orbs, shake := shake }).symm ?_
  · rw [heq, hfp]
  · intro j x x' hx hx' hxt
    have hxp : x = p := honly x (List.get?_mem hx) hxt
    rw [hxp] at hx
    have := physLoop_get_fixed m env worldRadius false p hpt rfl hin
      (List.range nodes.length) { nodes := nodes, orbs := orbs, shake := shake } j hx
    rw [this] at hx'
    injection hx' with h2
    rw [hxp]
    exact h2.symm

theorem projectionPhase_nonprojecting (m : JsMath) (env : Env)
    (width height : ℚ) (st : GameState)
    (hns : st.projection.playerState ≠ PlayerState.PROJECTING) :
    (projectionPhase m env width height st).nodes = st.nodes ∧
    (projectionPhase m env width height st).energyOrbs = st.energyOrbs ∧
    (projectionPhase m env width height st).energy = st.energy ∧
    (projectionPhase m env width height st).satellites = st.satellites ∧
    (projectionPhase m env width height st).screenShake = st.screenShake ∧
    decide ((projectionPhase m env width height st).projection.playerState =
      PlayerState.PROJECTING) = false := by
  unfold projectionPhase
  cases hp : findPlayer st.nodes with
  | none => exact ⟨rfl, rfl, rfl, rfl, rfl, by simpa using hns⟩
  | some player =>
    cases hs : st.projection.playerState with
    | IDLE =>
      refine ⟨rfl, rfl, rfl, rfl, rfl, ?_⟩
      show decide (st.projection.playerState = PlayerState.PROJECTING) = false
      rw [hs]
      decide
    | AIMING_DIRECTION =>
      refine ⟨rfl, rfl, rfl, rfl, rfl, ?_⟩
      show decide (st.projection.playerState = PlayerState.PROJECTING) = false
      rw [hs]
      decide
    | AIMING_POWER =>
      refine ⟨rfl, rfl, rfl, rfl, rfl, ?_⟩
      show decide (st.projection.playerState = PlayerState.PROJECTING) = false
      rw [hs]
      decide
    | PROJECTING => exact absurd hs hns
    | REFORMING =>
      refine ⟨rfl, rfl, rfl, rfl, rfl, ?_⟩
      show decide
        ((if st.projection.reformTimer - 1 ≤ 0 then PlayerState.IDLE
          else PlayerState.REFORMING) = PlayerState.PROJECTING) = false
      by_cases hT : st.projection.reformTimer - 1 ≤ 0
      · simp [hT]
      · simp [hT]

/-- Claim C10: energy-orb pickup runs on every unpaused tick regardless of the
projection state; in any of the non-PROJECTING states (IDLE,
AIMING_DIRECTION, AIMING_POWER, REFORMING), with the player inside the
boundary and no star spawning a fresh orb, exactly the orbs within
playerRadius + orbRadius + ORB_COLLECTION_LEEWAY of the player are removed
from the orb collection and the sum of their values lands in the energy
total (on top of the passive satellite and star accrual); no orb in range of
the surviving player node outlives the tick. -/
theorem c10_orb_pickup_every_tick (m : JsMath) (env : Env) (width height : ℚ)
    (st : GameState) (p : GameNode)
    (hpause : st.isPaused = false)
    (hns : st.projection.playerState ≠ PlayerState.PROJECTING)
    (hfp : findPlayer st.nodes = some p)
    (honly : ∀ x ∈ st.nodes, x.type = NodeType.player_consciousness → x = p)
    (hin : ¬ m.sqrt (p.x * p.x + p.y * p.y) >
      min width height * (3/2) / (st.zoomLevel + 1) - p.radius)
    (hnospawn : ∀ x ∈ st.nodes, x.type = NodeType.star →
      ¬ env.orbSpawnRand x.id < STAR_ORB_SPAWN_CHANCE) :
    (∀ q, findPlayer (tick m env width height st).nodes = some q →
      ∀ o ∈ (tick m env width height st).energyOrbs, orbHit m q o = false) ∧
    (tick m env width height st).energyOrbs =
      st.energyOrbs.filter (fun o => !(orbHit m p o)) ∧
    (tick m env width height st).energy =
      st.energy + (st.satellites.length : ℚ) * (1/10) +
        ((st.nodes.filter (fun n => decide (n.type = NodeType.star))).length : ℚ) *
          STAR_ENERGY_RATE +
        ((st.energyOrbs.filter (orbHit m p)).map EnergyOrb.value).sum := by
  have htick := tick_unpaused m env width height st hpause
  obtain ⟨hn, ho, he, hs, hsh, hflag⟩ :=
    projectionPhase_nonprojecting m env width height st hns
  have hacc : tickAcc m env (min width height * (3/2) / (st.zoomLevel + 1))
      (projectionPhase m env width height st) =
      physLoop m env (min width height * (3/2) / (st.zoomLevel + 1)) false
        (List.range st.nodes.length)
        { nodes := st.nodes, orbs := st.energyOrbs, shake := st.screenShake } := by
    unfold tickAcc
    rw [hflag, hn, ho, hsh]
  have hfp2 : findPlayer (tickAcc m env
      (min width height * (3/2) / (st.zoomLevel + 1))
      (projectionPhase m env width height st)).nodes = some p := by
    rw [hacc]
    exact findPlayer_physLoop_fixed m env _ p st.nodes st.energyOrbs st.screenShake
      hfp honly hin
  have horbs : (tickAcc m env (min width height * (3/2) / (st.zoomLevel + 1))
      (projectionPhase m env width height st)).orbs = st.energyOrbs := by
    rw [hacc]
    exact physLoop_orbs_nospawn m env _ false (List.range st.nodes.length)
      { nodes := st.nodes, orbs := st.energyOrbs, shake := st.screenShake } hnospawn
  refine ⟨?_, ?_, ?_⟩
  · rw [htick]
    exact tickTail_no_orb_in_range m env _ _
  · rw [htick, tickTail_energyOrbs, hfp2, horbs]
  · rw [htick, tickTail_energy, hfp2, horbs, hn, he, hs, hfp]

/-- Orb of the C10 run: close enough to the origin player to be collected. -/
def c10Orb : EnergyOrb :=
  { id := "orb_0", x := 10, y := 0, vx := 0, vy := 0, radius := 4, value := 10 }

/-- World of the C10 run: the quiescent base world plus one orb in range. -/
def c10State : GameState :=
  { baseState with energyOrbs := [c10Orb] }

/-- Math oracle of the C10 run, exact at every queried point. -/
def m10 : JsMath :=
  { sqrt := fun q => if q = 100 then 10 else 0,
    cos := fun _ => 0, sin := fun _ => 0, atan2 := fun _ _ => 0, pi := 0 }

/-- Witness for the C10 theorem: an IDLE tick at a world with one orb in
collection range of the player. -/
theorem c10_witness :
    orbHit m10 basePlayer c10Orb = true ∧
    ((∀ q, findPlayer (tick m10 envZero 800 600 c10State).nodes = some q →
      ∀ o ∈ (tick m10 envZero 800 600 c10State).energyOrbs,
        orbHit m10 q o = false) ∧
    (tick m10 envZero 800 600 c10State).energyOrbs =
      c10State.energyOrbs.filter (fun o => !(orbHit m10 basePlayer o)) ∧
    (tick m10 envZero 800 600 c10State).energy =
      c10State.energy + (c10State.satellites.length : ℚ) * (1/10) +
        ((c10State.nodes.filter
          (fun n => decide (n.type = NodeType.star))).length : ℚ) *
          STAR_ENERGY_RATE +
        ((c10State.energyOrbs.filter (orbHit m10 basePlayer)).map
          EnergyOrb.value).sum) :=
  ⟨by with_unfolding_all decide,
    c10_orb_pickup_every_tick m10 envZero 800 600 c10State basePlayer
      (by with_unfolding_all rfl) (by with_unfolding_all decide)
      (by with_unfolding_all rfl) (by with_unfolding_all decide)
      (by norm_num [m10, c10State, baseState, basePlayer])
      (by with_unfolding_all decide)⟩
